import Mathlib

/-
Verification of the command-buffer translation layer of dawn-ray-tracing
(src/dawn_native/d3d12/CommandBufferD3D12.cpp and
src/dawn_native/vulkan/CommandBufferVk.cpp): shallow embeddings of the
bind-group state tracker, the vertex- and index-buffer trackers, render-pass
attachment processing, resource-transition batching, copy-record
initialization handling, ray-tracing acceleration-container validation and
the render-pass index-buffer assertion, with theorems settling the
specification's claims about them.
-/

set_option autoImplicit false

/-! ## Basic enums (wgpu / DXGI / Vulkan), from the two backend files. -/

inductive LoadOp
  | load
  | clear
  deriving DecidableEq

inductive StoreOp
  | store
  | clear
  deriving DecidableEq

inductive IndexFormat
  | uint16
  | uint32
  deriving DecidableEq

inductive DXGIFormat
  | unknown
  | r16uint
  | r32uint
  deriving DecidableEq

/-- `DXGIIndexFormat` (CommandBufferD3D12.cpp lines 45-54). The `default`
arm of the source's switch is UNREACHABLE, so the domain of the embedding is
the two valid formats. -/
def DXGIIndexFormat : IndexFormat → DXGIFormat
  | .uint16 => .r16uint
  | .uint32 => .r32uint

inductive VkIndexType
  | uint16
  | uint32
  deriving DecidableEq

/-- `VulkanIndexType` (CommandBufferVk.cpp lines 42-51). -/
def VulkanIndexType : IndexFormat → VkIndexType
  | .uint16 => .uint16
  | .uint32 => .uint32

/-! ## Vertex buffer tracker (CommandBufferD3D12.cpp lines 326-386).

A D3D12 buffer is modelled by its GPU virtual address (`GetVA`) and size;
a render pipeline by an identity (the source compares pipelines by
pointer), the set of vertex-buffer slots its vertex state uses and the
per-slot array stride. -/

def kMaxVertexBuffers : Nat := 16

structure D3DBuffer where
  va : Nat
  size : Nat
  deriving DecidableEq

structure D3DVertexBufferView where
  bufferLocation : Nat
  sizeInBytes : Nat
  strideInBytes : Nat
  deriving DecidableEq

structure RenderPipeline where
  id : Nat
  vertexBufferSlotsUsed : Nat → Bool
  arrayStride : Nat → Nat

/-- The ascending list of vertex-buffer slots used by the pipeline
(`IterateBitSet(renderPipeline->GetVertexBufferSlotsUsed())`). -/
def usedSlots (p : RenderPipeline) : List Nat :=
  (List.range kMaxVertexBuffers).filter fun s => p.vertexBufferSlotsUsed s

structure VertexBufferTracker where
  lastAppliedRenderPipeline : Option Nat
  startSlot : Nat
  endSlot : Nat
  bufferViews : Nat → D3DVertexBufferView

def vbtInit : VertexBufferTracker :=
  { lastAppliedRenderPipeline := none
    startSlot := kMaxVertexBuffers
    endSlot := 0
    bufferViews := fun _ => ⟨0, 0, 0⟩ }

/-- `VertexBufferTracker::OnSetVertexBuffer`: record the binding and widen
the dirty range `[mStartSlot, mEndSlot)`. -/
def onSetVertexBuffer (t : VertexBufferTracker) (slot : Nat) (buffer : D3DBuffer)
    (offset : Nat) : VertexBufferTracker :=
  { t with
    startSlot := min t.startSlot slot
    endSlot := max t.endSlot (slot + 1)
    bufferViews := fun s =>
      if s = slot then
        { bufferLocation := buffer.va + offset
          sizeInBytes := buffer.size - offset
          strideInBytes := (t.bufferViews slot).strideInBytes }
      else t.bufferViews s }

def maxSucc (e s : Nat) : Nat := max e (s + 1)

/-- The pipeline-changed half of `VertexBufferTracker::Apply`: extend the
dirty range over every slot the new pipeline's vertex state uses and refresh
those slots' strides from the pipeline. When the pipeline is unchanged the
tracker is returned as is. (In the source the widened bounds live in locals;
storing them in the state is faithful because when no bind is issued below,
the widened bounds coincide with the stored ones.) -/
def vbtWiden (t : VertexBufferTracker) (p : RenderPipeline) : VertexBufferTracker :=
  if t.lastAppliedRenderPipeline = some p.id then t
  else
    { lastAppliedRenderPipeline := some p.id
      startSlot := (usedSlots p).foldl min t.startSlot
      endSlot := (usedSlots p).foldl maxSucc t.endSlot
      bufferViews := fun s =>
        if s ∈ usedSlots p then
          { t.bufferViews s with strideInBytes := p.arrayStride s }
        else t.bufferViews s }

inductive VBInstr
  | iaSetVertexBuffers (startSlot count : Nat) (views : List D3DVertexBufferView)
  deriving DecidableEq

/-- `VertexBufferTracker::Apply`: widen on pipeline change, then, if the
dirty range is non-empty, issue one `IASetVertexBuffers` over the whole
contiguous range and clear the range. -/
def vbtApply (t : VertexBufferTracker) (p : RenderPipeline) :
    VertexBufferTracker × List VBInstr :=
  let t1 := vbtWiden t p
  if t1.endSlot ≤ t1.startSlot then (t1, [])
  else
    ({ t1 with startSlot := kMaxVertexBuffers, endSlot := 0 },
      [VBInstr.iaSetVertexBuffers t1.startSlot (t1.endSlot - t1.startSlot)
        ((List.range (t1.endSlot - t1.startSlot)).map fun i =>
          t1.bufferViews (t1.startSlot + i))])

inductive VBEvent
  | setVertexBuffer (slot : Nat) (buffer : D3DBuffer) (offset : Nat)
  | applyDraw (p : RenderPipeline)

def vbtStep (t : VertexBufferTracker) : VBEvent → VertexBufferTracker × List VBInstr
  | .setVertexBuffer slot b off => (onSetVertexBuffer t slot b off, [])
  | .applyDraw p => vbtApply t p

def vbtRun (t : VertexBufferTracker) : List VBEvent → VertexBufferTracker × List VBInstr
  | [] => (t, [])
  | e :: es =>
    let r := vbtStep t e
    let r2 := vbtRun r.1 es
    (r2.1, r.2 ++ r2.2)

/-- The slots set by `SetVertexBuffer` records since the last `Apply` of the
event list. -/
def pendingSlots (es : List VBEvent) : List Nat :=
  es.foldl
    (fun acc e =>
      match e with
      | .setVertexBuffer slot _ _ => slot :: acc
      | .applyDraw _ => [])
    []

/-- The instruction list is one vertex-buffer bind whose contiguous slot
range contains slot `s`. -/
def VBCovers (out : List VBInstr) (s : Nat) : Prop :=
  ∃ st cnt vs, out = [VBInstr.iaSetVertexBuffers st cnt vs] ∧ st ≤ s ∧ s < st + cnt

/-- Claim C7, as settled: every `Apply` after an event history issues at most
one bind; the bind covers every slot set since the previous `Apply` and, on a
pipeline change, every slot the new pipeline uses, whose strides are
refreshed; afterwards the dirty range is empty. -/
def C7Concl (es : List VBEvent) (p : RenderPipeline) : Prop :=
  (∀ s ∈ pendingSlots es, VBCovers (vbtApply (vbtRun vbtInit es).1 p).2 s) ∧
  (¬ (vbtRun vbtInit es).1.lastAppliedRenderPipeline = some p.id →
    ∀ s ∈ usedSlots p,
      VBCovers (vbtApply (vbtRun vbtInit es).1 p).2 s ∧
      ((vbtApply (vbtRun vbtInit es).1 p).1.bufferViews s).strideInBytes =
        p.arrayStride s) ∧
  (vbtApply (vbtRun vbtInit es).1 p).1.endSlot ≤
    (vbtApply (vbtRun vbtInit es).1 p).1.startSlot ∧
  ((vbtApply (vbtRun vbtInit es).1 p).2 = [] ∨
    ∃ st cnt, 0 < cnt ∧
      (vbtApply (vbtRun vbtInit es).1 p).2 =
        [VBInstr.iaSetVertexBuffers st cnt
          ((List.range cnt).map fun i =>
            (vbtApply (vbtRun vbtInit es).1 p).1.bufferViews (st + i))])

/-! ## Index buffer tracker (CommandBufferD3D12.cpp lines 388-416). -/

structure D3DIndexBufferView where
  bufferLocation : Nat
  sizeInBytes : Nat
  format : DXGIFormat
  deriving DecidableEq

structure IndexBufferTracker where
  lastAppliedIndexFormat : DXGIFormat
  view : D3DIndexBufferView
  deriving DecidableEq

def ibtInit : IndexBufferTracker := ⟨.unknown, ⟨0, 0, .unknown⟩⟩

/-- `IndexBufferTracker::OnSetIndexBuffer`: update location and size and
reset the last-applied format to UNKNOWN, which unconditionally dirties the
tracker (the source notes it does not compare location or size). -/
def ibtOnSetIndexBuffer (t : IndexBufferTracker) (buffer : D3DBuffer) (offset : Nat) :
    IndexBufferTracker :=
  { lastAppliedIndexFormat := .unknown
    view :=
      { t.view with
        bufferLocation := buffer.va + offset
        sizeInBytes := buffer.size - offset } }

/-- `IndexBufferTracker::OnSetPipeline`: the element format comes from the
pipeline's vertex state. -/
def ibtOnSetPipeline (t : IndexBufferTracker) (fmt : IndexFormat) : IndexBufferTracker :=
  { t with view := { t.view with format := DXGIIndexFormat fmt } }

inductive IBInstr
  | iaSetIndexBuffer (view : D3DIndexBufferView)
  deriving DecidableEq

/-- `IndexBufferTracker::Apply`: rebind only when the view's format differs
from the last applied one. -/
def ibtApply (t : IndexBufferTracker) : IndexBufferTracker × List IBInstr :=
  if t.view.format = t.lastAppliedIndexFormat then (t, [])
  else
    ({ t with lastAppliedIndexFormat := t.view.format },
      [IBInstr.iaSetIndexBuffer t.view])

inductive IBEvent
  | setIndexBuffer (buffer : D3DBuffer) (offset : Nat)
  | setPipeline (fmt : IndexFormat)
  | applyDraw
  deriving DecidableEq

def ibtStep (t : IndexBufferTracker) : IBEvent → IndexBufferTracker × List IBInstr
  | .setIndexBuffer b off => (ibtOnSetIndexBuffer t b off, [])
  | .setPipeline fmt => (ibtOnSetPipeline t fmt, [])
  | .applyDraw => ibtApply t

def ibtRun (t : IndexBufferTracker) : List IBEvent → IndexBufferTracker × List IBInstr
  | [] => (t, [])
  | e :: es =>
    let r := ibtStep t e
    let r2 := ibtRun r.1 es
    (r2.1, r.2 ++ r2.2)

/-- The event trace that refutes claim C8 as stated: the same buffer is
re-set with identical location, size and pipeline-derived format, yet Apply
rebinds. -/
def ibtCexEvents : List IBEvent :=
  [IBEvent.setIndexBuffer ⟨100, 64⟩ 0, IBEvent.setPipeline .uint16, IBEvent.applyDraw,
   IBEvent.setIndexBuffer ⟨100, 64⟩ 0, IBEvent.applyDraw]

def ibtCexView : D3DIndexBufferView := ⟨100, 64, .r16uint⟩

/-- Claim C8, as settled: `Apply` is idempotent; an unchanged pipeline-derived
format after an `Apply` emits nothing; any `SetIndexBuffer` forces the next
`Apply` to emit exactly one bind (even when the resulting descriptor is
unchanged); an `Apply` emits at most one bind and emits nothing exactly when
the format matches the last applied one. -/
def C8Concl (t : IndexBufferTracker) (b : D3DBuffer) (off : Nat) (fmt : IndexFormat) : Prop :=
  ibtApply (ibtApply t).1 = ((ibtApply t).1, []) ∧
  (DXGIIndexFormat fmt = t.lastAppliedIndexFormat →
    ibtApply (ibtOnSetPipeline t fmt) = (ibtOnSetPipeline t fmt, [])) ∧
  (¬ t.view.format = .unknown →
    (ibtApply (ibtOnSetIndexBuffer t b off)).2 =
      [IBInstr.iaSetIndexBuffer ⟨b.va + off, b.size - off, t.view.format⟩]) ∧
  (ibtApply t).2.length ≤ 1 ∧
  ((ibtApply t).2 = [] ↔ t.view.format = t.lastAppliedIndexFormat)

/-! ## Render-pass attachment processing (CommandBufferVk.cpp lines 217-310).

An attachment is modelled by its requested load/store operations together
with the initialization-tracker bits of the attached view's subresource
range (`IsSubresourceContentInitialized`) and of the resolve target. The
result records the effective load operation put into the render-pass query
and the initialization bits after the calls to
`SetIsSubresourceContentInitialized`. -/

structure ColorAttachment where
  loadOp : LoadOp
  storeOp : StoreOp
  hasResolveTarget : Bool
  viewInitBefore : Bool
  resolveInitBefore : Bool
  deriving DecidableEq

structure ColorAttachmentResult where
  effLoadOp : LoadOp
  viewInitAfter : Bool
  resolveInitAfter : Bool
  deriving DecidableEq

/-- Color-attachment processing in `RecordBeginRenderPass` (lines 227-269):
upgrade a Load of an uninitialized subresource to Clear, mark a resolve
target valid, and mark the view's subresource per the store operation
(Store → valid, Clear → invalid). -/
def processColorAttachment (a : ColorAttachment) : ColorAttachmentResult :=
  let loadOp := if a.loadOp = .load ∧ a.viewInitBefore = false then LoadOp.clear else a.loadOp
  let resolveAfter := if a.hasResolveTarget then true else a.resolveInitBefore
  let viewAfter :=
    match a.storeOp with
    | .store => true
    | .clear => false
  ⟨loadOp, viewAfter, resolveAfter⟩

structure DepthStencilAttachment where
  depthLoadOp : LoadOp
  stencilLoadOp : LoadOp
  depthStoreOp : StoreOp
  stencilStoreOp : StoreOp
  clearDepth : Nat
  clearStencil : Nat
  deriving DecidableEq

structure DepthStencilResult where
  depthLoadOpEff : LoadOp
  stencilLoadOpEff : LoadOp
  clearDepthEff : Nat
  clearStencilEff : Nat
  initAfter : Bool
  deriving DecidableEq

/-- Depth-stencil attachment processing in `RecordBeginRenderPass` (lines
271-305): per-aspect load-op upgrade with zeroed clear values when the
subresource range is uninitialized, and an initialization update only when
the depth and stencil store operations agree. The clear values are floats in
the source; only the zero written by the upgrade matters here, so they are
carried as naturals. -/
def processDepthStencilAttachment (hasDepth hasStencil initBefore : Bool)
    (a : DepthStencilAttachment) : DepthStencilResult :=
  let dUp := initBefore = false ∧ hasDepth = true ∧ a.depthLoadOp = LoadOp.load
  let sUp := initBefore = false ∧ hasStencil = true ∧ a.stencilLoadOp = LoadOp.load
  { depthLoadOpEff := if dUp then .clear else a.depthLoadOp
    clearDepthEff := if dUp then 0 else a.clearDepth
    stencilLoadOpEff := if sUp then .clear else a.stencilLoadOp
    clearStencilEff := if sUp then 0 else a.clearStencil
    initAfter :=
      if a.depthStoreOp = .store ∧ a.stencilStoreOp = .store then true
      else if a.depthStoreOp = .clear ∧ a.stencilStoreOp = .clear then false
      else initBefore }

/-- Claim C2, as settled: a Load against an uninitialized subresource is
recorded as an effective Clear (with zero clear values for depth/stencil), an
initialized subresource keeps its requested load op, and the after-pass
initialization bit follows the store operation (valid exactly when Store),
not unconditionally valid. -/
def C2Concl (a : ColorAttachment) (hasDepth hasStencil initB : Bool)
    (d : DepthStencilAttachment) : Prop :=
  (a.loadOp = .load → a.viewInitBefore = false →
    (processColorAttachment a).effLoadOp = .clear) ∧
  (a.viewInitBefore = true → (processColorAttachment a).effLoadOp = a.loadOp) ∧
  ((processColorAttachment a).viewInitAfter = true ↔ a.storeOp = .store) ∧
  (initB = false → hasDepth = true → d.depthLoadOp = .load →
    (processDepthStencilAttachment hasDepth hasStencil initB d).depthLoadOpEff = .clear ∧
    (processDepthStencilAttachment hasDepth hasStencil initB d).clearDepthEff = 0) ∧
  (initB = false → hasStencil = true → d.stencilLoadOp = .load →
    (processDepthStencilAttachment hasDepth hasStencil initB d).stencilLoadOpEff = .clear ∧
    (processDepthStencilAttachment hasDepth hasStencil initB d).clearStencilEff = 0) ∧
  (initB = true →
    (processDepthStencilAttachment hasDepth hasStencil initB d).depthLoadOpEff =
      d.depthLoadOp ∧
    (processDepthStencilAttachment hasDepth hasStencil initB d).stencilLoadOpEff =
      d.stencilLoadOp)

/-- Claim C4, as settled: after the pass a color attachment's subresource is
valid exactly when its store op is Store; a resolve target is always marked
valid; the depth-stencil subresource range is updated only when both store
ops agree (both Store → valid, both Clear → invalid) and is otherwise left
unchanged. -/
def C4Concl (a : ColorAttachment) (hasDepth hasStencil initB : Bool)
    (d : DepthStencilAttachment) : Prop :=
  (a.storeOp = .store → (processColorAttachment a).viewInitAfter = true) ∧
  (a.storeOp = .clear → (processColorAttachment a).viewInitAfter = false) ∧
  (a.hasResolveTarget = true → (processColorAttachment a).resolveInitAfter = true) ∧
  (d.depthStoreOp = .store → d.stencilStoreOp = .store →
    (processDepthStencilAttachment hasDepth hasStencil initB d).initAfter = true) ∧
  (d.depthStoreOp = .clear → d.stencilStoreOp = .clear →
    (processDepthStencilAttachment hasDepth hasStencil initB d).initAfter = false) ∧
  (¬ d.depthStoreOp = d.stencilStoreOp →
    (processDepthStencilAttachment hasDepth hasStencil initB d).initAfter = initB)

/-! ## Copy records and initialization tracking (CommandBufferVk.cpp lines
708-825; CommandBufferD3D12.cpp lines 570-694). -/

structure Extent3D where
  width : Nat
  height : Nat
  depth : Nat
  deriving DecidableEq

structure TextureDesc where
  id : Nat
  size : Extent3D
  deriving DecidableEq

/-- Modelled from the spec: the extent of a texture's subresource at a mip
level, the granularity at which `IsCompleteSubresourceCopiedTo` (declared
outside src/) compares the copy extent. -/
def mipLevelExtent (t : TextureDesc) (mip : Nat) : Extent3D :=
  ⟨max (t.size.width / 2 ^ mip) 1, max (t.size.height / 2 ^ mip) 1, t.size.depth⟩

/-- Modelled from the spec: `IsCompleteSubresourceCopiedTo` (declared outside
src/) — the destination copy extent exactly equals the destination
subresource's full extent. -/
def IsCompleteSubresourceCopiedTo (t : TextureDesc) (copySize : Extent3D) (mip : Nat) : Bool :=
  decide (copySize = mipLevelExtent t mip)

inductive CopyAction
  | ensureSubresourceContent (texId mip layer : Nat)
  | setSubresourceContentValid (texId mip layer : Nat) (valid : Bool)
  | copyTextureToTexture (srcId dstId : Nat)
  | copyBufferToTexture (bufId dstId : Nat)
  deriving DecidableEq

/-- Initialization-relevant actions of the `CopyTextureToTexture` record
handler (CommandBufferVk.cpp lines 768-786; the D3D12 handler lines 651-668
is identical in these actions): ensure the source, then either mark the
destination valid (complete-subresource copy) or ensure it, then copy. -/
def copyTextureToTextureActions (src dst : TextureDesc) (srcMip srcLayer dstMip dstLayer : Nat)
    (copySize : Extent3D) : List CopyAction :=
  [CopyAction.ensureSubresourceContent src.id srcMip srcLayer] ++
    (if IsCompleteSubresourceCopiedTo dst copySize dstMip then
      [CopyAction.setSubresourceContentValid dst.id dstMip dstLayer true]
    else
      [CopyAction.ensureSubresourceContent dst.id dstMip dstLayer]) ++
    [CopyAction.copyTextureToTexture src.id dst.id]

/-- Initialization-relevant actions of the `CopyBufferToTexture` record
handler (CommandBufferVk.cpp lines 708-740; D3D12 lines 570-583). -/
def copyBufferToTextureActions (bufId : Nat) (dst : TextureDesc) (dstMip dstLayer : Nat)
    (copySize : Extent3D) : List CopyAction :=
  (if IsCompleteSubresourceCopiedTo dst copySize dstMip then
    [CopyAction.setSubresourceContentValid dst.id dstMip dstLayer true]
  else
    [CopyAction.ensureSubresourceContent dst.id dstMip dstLayer]) ++
    [CopyAction.copyBufferToTexture bufId dst.id]

/-- Claim C5, as settled: a copy whose destination extent equals the full
destination subresource extent performs only the mark-valid bookkeeping and
never an ensure on the destination subresource; otherwise the destination is
ensured before the copy. -/
def C5Concl (src dst : TextureDesc) (srcMip srcLayer dstMip dstLayer bufId : Nat)
    (copySize : Extent3D) : Prop :=
  (IsCompleteSubresourceCopiedTo dst copySize dstMip = true →
    (¬ (src.id = dst.id ∧ srcMip = dstMip ∧ srcLayer = dstLayer) →
      CopyAction.ensureSubresourceContent dst.id dstMip dstLayer ∉
        copyTextureToTextureActions src dst srcMip srcLayer dstMip dstLayer copySize) ∧
    CopyAction.setSubresourceContentValid dst.id dstMip dstLayer true ∈
      copyTextureToTextureActions src dst srcMip srcLayer dstMip dstLayer copySize ∧
    CopyAction.ensureSubresourceContent dst.id dstMip dstLayer ∉
      copyBufferToTextureActions bufId dst dstMip dstLayer copySize ∧
    CopyAction.setSubresourceContentValid dst.id dstMip dstLayer true ∈
      copyBufferToTextureActions bufId dst dstMip dstLayer copySize) ∧
  (IsCompleteSubresourceCopiedTo dst copySize dstMip = false →
    copyTextureToTextureActions src dst srcMip srcLayer dstMip dstLayer copySize =
      [CopyAction.ensureSubresourceContent src.id srcMip srcLayer,
       CopyAction.ensureSubresourceContent dst.id dstMip dstLayer,
       CopyAction.copyTextureToTexture src.id dst.id] ∧
    copyBufferToTextureActions bufId dst dstMip dstLayer copySize =
      [CopyAction.ensureSubresourceContent dst.id dstMip dstLayer,
       CopyAction.copyBufferToTexture bufId dst.id] ∧
    CopyAction.setSubresourceContentValid dst.id dstMip dstLayer true ∉
      copyTextureToTextureActions src dst srcMip srcLayer dstMip dstLayer copySize)

/-! ## D3D12 bind-group state tracker (CommandBufferD3D12.cpp lines 72-276).

A bind group is modelled by an identity (the source compares group objects
by pointer), the number of shader-visible descriptors its realization
consumes, its layout's dynamic-offset bindings (ascending binding indices of
`layout.hasDynamicOffset`, each a dynamic buffer binding with a base buffer
address and static offset), and its descriptor-table shape. -/

def kMaxBindGroups : Nat := 4

/-- The ascending list of bind-group indices set in a bitset
(`IterateBitSet` over `std::bitset<kMaxBindGroups>`). -/
def maskList (m : Nat → Bool) : List Nat :=
  (List.range kMaxBindGroups).filter fun i => m i

/-- The dynamic-buffer binding types the `ApplyBindGroup` dynamic-offset
switch accepts; every other binding type there is UNREACHABLE, so the
embedding's domain is these three. -/
inductive DynBufKind
  | uniformBuffer
  | storageBuffer
  | readonlyStorageBuffer
  deriving DecidableEq

structure D3DBindGroup where
  id : Nat
  descriptorSize : Nat
  dynamicBindings : List Nat
  bindingKind : Nat → DynBufKind
  bindingBufferVA : Nat → Nat
  bindingOffset : Nat → Nat
  cbvUavSrvCount : Nat
  samplerCount : Nat
  baseCbvUavSrvDescriptor : Nat
  baseSamplerDescriptor : Nat

structure D3DPipelineLayout where
  dynamicRootParameterIndex : Nat → Nat → Nat
  cbvUavSrvRootParameterIndex : Nat → Nat
  samplerRootParameterIndex : Nat → Nat

/-- Modelled from the spec: the capacity-limited shader-visible descriptor
allocator (`ShaderVisibleDescriptorAllocator`, not under src/). Realizing a
group succeeds exactly when its descriptors fit in the remaining space of
the current heap generation; switching starts a fresh, empty generation. -/
structure ShaderVisibleAllocator where
  generation : Nat
  capacity : Nat
  used : Nat
  deriving DecidableEq

/-- Modelled from the spec: `BindGroup::Populate` (not under src/) returns
whether the group's descriptors could be allocated from the shader-visible
heap; exhaustion is a graceful `false`, not an error. -/
def tryPopulate (alloc : ShaderVisibleAllocator) (g : D3DBindGroup) :
    Bool × ShaderVisibleAllocator :=
  if alloc.used + g.descriptorSize ≤ alloc.capacity then
    (true, { alloc with used := alloc.used + g.descriptorSize })
  else (false, alloc)

/-- Modelled from the spec: `AllocateAndSwitchShaderVisibleHeaps` (not under
src/) — a new heap generation invalidating all previous realizations. -/
def switchGeneration (alloc : ShaderVisibleAllocator) : ShaderVisibleAllocator :=
  { alloc with generation := alloc.generation + 1, used := 0 }

/-- The abstract events `BindGroupStateTracker::Apply` produces: descriptor
realizations (`Populate`), heap management, dynamic-offset root bindings and
descriptor-table bindings. -/
inductive D3DEvent
  | populate (groupId gen : Nat)
  | switchHeaps (gen : Nat)
  | setDescriptorHeaps (gen : Nat)
  | setRootDynamicBuffer (inCompute : Bool) (kind : DynBufKind) (param loc : Nat)
  | setRootDescriptorTable (inCompute : Bool) (param base : Nat)
  deriving DecidableEq

def D3DEvent.isPopulate : D3DEvent → Bool
  | .populate _ _ => true
  | _ => false

def D3DEvent.isBindingInstr : D3DEvent → Bool
  | .setRootDynamicBuffer _ _ _ _ => true
  | .setRootDescriptorTable _ _ _ => true
  | _ => false

def D3DEvent.isDescriptorTable : D3DEvent → Bool
  | .setRootDescriptorTable _ _ _ => true
  | _ => false

/-- `BindGroupStateTracker::ApplyBindGroup` (lines 171-271): when dynamic
offsets are present they are always reapplied — one root binding per
dynamic-offset binding of the layout, at base address + static offset +
dynamic offset; then, only when the group object itself is dirty, the
cbv/uav/srv and sampler descriptor tables are set. -/
def applyBindGroup (inCompute : Bool) (layout : D3DPipelineLayout) (index : Nat)
    (group : D3DBindGroup) (dynamicOffsetCount : Nat) (dynamicOffsets : List Nat)
    (objectDirty : Bool) : List D3DEvent :=
  let offsetEvents :=
    if dynamicOffsetCount ≠ 0 then
      group.dynamicBindings.enum.map fun bi =>
        D3DEvent.setRootDynamicBuffer inCompute (group.bindingKind bi.2)
          (layout.dynamicRootParameterIndex index bi.2)
          (group.bindingBufferVA bi.2 +
            (group.bindingOffset bi.2 + dynamicOffsets.getD bi.1 0))
    else []
  if objectDirty then
    offsetEvents ++
      (if 0 < group.cbvUavSrvCount then
        [D3DEvent.setRootDescriptorTable inCompute
          (layout.cbvUavSrvRootParameterIndex index) group.baseCbvUavSrvDescriptor]
      else []) ++
      (if 0 < group.samplerCount then
        [D3DEvent.setRootDescriptorTable inCompute
          (layout.samplerRootParameterIndex index) group.baseSamplerDescriptor]
      else [])
  else offsetEvents

/-- The tracker state. The base-class fields (`BindGroupTrackerBase` /
`BindGroupAndStorageBarrierTrackerBase`, not under src/) follow the spec's
data model: a per-slot group, dynamic-offset values and dirty flags split
into object-changed and object-changed-or-dynamic. -/
structure BindGroupStateTracker where
  inCompute : Bool
  pipelineLayout : D3DPipelineLayout
  bindGroupLayoutsMask : Nat → Bool
  dirtyBindGroups : Nat → Bool
  dirtyBindGroupsObjectChangedOrIsDynamic : Nat → Bool
  bindGroups : Nat → D3DBindGroup
  dynamicOffsetCounts : Nat → Nat
  dynamicOffsets : Nat → List Nat

/-- The `Populate` loop of `Apply`: realize the listed groups in ascending
order, stopping at the first exhaustion (`didCreateBindGroups == false`).
Returns the allocator, the realization events and whether all succeeded. -/
def populateGroups (alloc : ShaderVisibleAllocator) (tr : BindGroupStateTracker) :
    List Nat → ShaderVisibleAllocator × List D3DEvent × Bool
  | [] => (alloc, [], true)
  | i :: rest =>
    let r := tryPopulate alloc (tr.bindGroups i)
    if r.1 then
      let r2 := populateGroups r.2 tr rest
      (r2.1, D3DEvent.populate (tr.bindGroups i).id r.2.generation :: r2.2.1, r2.2.2)
    else (r.2, [D3DEvent.populate (tr.bindGroups i).id r.2.generation], false)

/-- Modelled from the spec: `DidApply` of the base tracker (not under src/)
clears both dirty sets. -/
def didApply (tr : BindGroupStateTracker) : BindGroupStateTracker :=
  { tr with
    dirtyBindGroups := fun _ => false
    dirtyBindGroupsObjectChangedOrIsDynamic := fun _ => false }

/-- The dirty-marking the heap switch performs (lines 108-109):
`mDirtyBindGroupsObjectChangedOrIsDynamic |= mBindGroupLayoutsMask` and
`mDirtyBindGroups |= mBindGroupLayoutsMask`. -/
def heapSwitchMarkAllDirty (tr : BindGroupStateTracker) : BindGroupStateTracker :=
  { tr with
    dirtyBindGroups := fun i => tr.dirtyBindGroups i || tr.bindGroupLayoutsMask i
    dirtyBindGroupsObjectChangedOrIsDynamic := fun i =>
      tr.dirtyBindGroupsObjectChangedOrIsDynamic i || tr.bindGroupLayoutsMask i }

/-- The `ApplyBindGroup` loop of `Apply` (lines 121-125), over the
dirty-or-dynamic slots in ascending order. -/
def applyDirtyBindGroups (tr : BindGroupStateTracker) : List D3DEvent :=
  (maskList tr.dirtyBindGroupsObjectChangedOrIsDynamic).flatMap fun i =>
    applyBindGroup tr.inCompute tr.pipelineLayout i (tr.bindGroups i)
      (tr.dynamicOffsetCounts i) (tr.dynamicOffsets i) (tr.dirtyBindGroups i)

/-- The outcome of `Apply`: `ok` (MaybeError success), `error` (a
caller-visible MaybeError, which in the embedding is never produced because
the modelled heap switch cannot fail at the device level), or `fatalAssert`
(the `ASSERT(didCreateBindGroups)` on a failed retry — fatal, not
caller-visible). -/
inductive ApplyOutcome
  | ok
  | error
  | fatalAssert
  deriving DecidableEq

structure BGApplyResult where
  outcome : ApplyOutcome
  tracker : BindGroupStateTracker
  alloc : ShaderVisibleAllocator
  events : List D3DEvent

/-- `BindGroupStateTracker::Apply` (lines 83-159): populate the dirty
groups; if one fails, switch the shader-visible heap generation, mark every
layout-mask slot dirty, rebind the heaps to the command list
(`SetID3D12DescriptorHeaps`), re-populate every mask slot (a failure here is
the assertion), then apply root bindings for every dirty-or-dynamic slot and
clear the dirty sets. -/
def bgApply (tr : BindGroupStateTracker) (alloc : ShaderVisibleAllocator) : BGApplyResult :=
  let r1 := populateGroups alloc tr (maskList tr.dirtyBindGroups)
  if r1.2.2 then
    { outcome := .ok, tracker := didApply tr, alloc := r1.1
      events := r1.2.1 ++ applyDirtyBindGroups tr }
  else
    let a2 := switchGeneration r1.1
    let tr2 := heapSwitchMarkAllDirty tr
    let r2 := populateGroups a2 tr2 (maskList tr2.bindGroupLayoutsMask)
    if r2.2.2 then
      { outcome := .ok, tracker := didApply tr2, alloc := r2.1
        events := r1.2.1 ++
          [D3DEvent.switchHeaps a2.generation, D3DEvent.setDescriptorHeaps a2.generation] ++
          r2.2.1 ++ applyDirtyBindGroups tr2 }
    else
      { outcome := .fatalAssert, tracker := tr2, alloc := r2.1
        events := r1.2.1 ++
          [D3DEvent.switchHeaps a2.generation, D3DEvent.setDescriptorHeaps a2.generation] ++
          r2.2.1 }

/-- Modelled from the spec: `BindGroupTrackerBase::OnSetBindGroup` (not
under src/) — store the group, mark the object-changed dirty bit when the
stored group object differs, and mark the dirty-or-dynamic bit when the
object changed or dynamic offsets are present. -/
def onSetBindGroup (tr : BindGroupStateTracker) (index : Nat) (group : D3DBindGroup)
    (dynamicOffsetCount : Nat) (dynOffsets : List Nat) : BindGroupStateTracker :=
  let objectChanged := ¬ (tr.bindGroups index).id = group.id
  { tr with
    bindGroups := fun i => if i = index then group else tr.bindGroups i
    dirtyBindGroups := fun i =>
      if i = index ∧ objectChanged then true else tr.dirtyBindGroups i
    dirtyBindGroupsObjectChangedOrIsDynamic := fun i =>
      if i = index ∧ (objectChanged ∨ 0 < dynamicOffsetCount) then true
      else tr.dirtyBindGroupsObjectChangedOrIsDynamic i
    dynamicOffsetCounts := fun i =>
      if i = index then dynamicOffsetCount else tr.dynamicOffsetCounts i
    dynamicOffsets := fun i => if i = index then dynOffsets else tr.dynamicOffsets i }

/-- The total descriptor count of the groups bound at the layout mask. -/
def maskDescriptorSize (tr : BindGroupStateTracker) : Nat :=
  ((maskList tr.bindGroupLayoutsMask).map fun i => (tr.bindGroups i).descriptorSize).sum

/-- Claim C1, as settled: when the first realization pass fails, `Apply`
switches to a new heap generation, rebinds the heaps, re-realizes every
layout-mask slot before any binding instruction, never surfaces a
caller-visible error (the retry assertion is fatal), and — the groups
fitting in a fresh heap — the retry succeeds. -/
def C1Concl (tr : BindGroupStateTracker) (alloc : ShaderVisibleAllocator) : Prop :=
  (bgApply tr alloc).outcome = ApplyOutcome.ok ∧
  (bgApply tr alloc).events =
    (populateGroups alloc tr (maskList tr.dirtyBindGroups)).2.1 ++
    [D3DEvent.switchHeaps (alloc.generation + 1),
     D3DEvent.setDescriptorHeaps (alloc.generation + 1)] ++
    ((maskList tr.bindGroupLayoutsMask).map fun i =>
      D3DEvent.populate (tr.bindGroups i).id (alloc.generation + 1)) ++
    applyDirtyBindGroups (heapSwitchMarkAllDirty tr) ∧
  (∀ e ∈ (populateGroups alloc tr (maskList tr.dirtyBindGroups)).2.1,
    e.isPopulate = true) ∧
  (∀ e ∈ applyDirtyBindGroups (heapSwitchMarkAllDirty tr), e.isBindingInstr = true) ∧
  (∀ i, tr.bindGroupLayoutsMask i = true →
    (heapSwitchMarkAllDirty tr).dirtyBindGroups i = true ∧
    (heapSwitchMarkAllDirty tr).dirtyBindGroupsObjectChangedOrIsDynamic i = true) ∧
  (∀ tr' al', ¬ (bgApply tr' al').outcome = ApplyOutcome.error)

/-- Claim C6, as settled: after `SetBindGroup(0, G)` and a successful
`Apply`, a second `SetBindGroup(0, G)` with the same group and offsets
followed by `Apply` realizes no descriptor table and emits exactly the
dynamic-offset root bindings for slot 0 when dynamic offsets are present
(and nothing at all otherwise); and within `ApplyBindGroup`, every
dynamic-offset binding is rebound whenever offsets are present, dirty or
not. -/
def C6Concl (tr : BindGroupStateTracker) (alloc : ShaderVisibleAllocator)
    (G : D3DBindGroup) (n : Nat) (offs : List Nat) : Prop :=
  (bgApply (onSetBindGroup (bgApply (onSetBindGroup tr 0 G n offs) alloc).tracker 0 G n offs)
      (bgApply (onSetBindGroup tr 0 G n offs) alloc).alloc).outcome = ApplyOutcome.ok ∧
  (bgApply (onSetBindGroup (bgApply (onSetBindGroup tr 0 G n offs) alloc).tracker 0 G n offs)
      (bgApply (onSetBindGroup tr 0 G n offs) alloc).alloc).events =
    (if 0 < n then
      applyBindGroup tr.inCompute tr.pipelineLayout 0 G n offs false
    else []) ∧
  (∀ e ∈ (bgApply
      (onSetBindGroup (bgApply (onSetBindGroup tr 0 G n offs) alloc).tracker 0 G n offs)
      (bgApply (onSetBindGroup tr 0 G n offs) alloc).alloc).events,
    e.isDescriptorTable = false) ∧
  (∀ (inC : Bool) (lay : D3DPipelineLayout) (idx cnt : Nat) (dynOffs : List Nat)
      (g : D3DBindGroup) (dirtyObj : Bool),
    ¬ cnt = 0 →
    ∀ b ∈ g.dynamicBindings, ∃ loc,
      D3DEvent.setRootDynamicBuffer inC (g.bindingKind b)
        (lay.dynamicRootParameterIndex idx b) loc ∈
        applyBindGroup inC lay idx g cnt dynOffs dirtyObj)

/-! ## Pass transition batching (CommandBufferD3D12.cpp lines 462-553,
`PrepareResourcesForSubmission` and the `RecordCommands` top loop).

Resource usage states are small codes; each resource's tracked current state
lives in a map owned by the recording. -/

structure Transition where
  resId : Nat
  stateBefore : Nat
  stateAfter : Nat
  deriving DecidableEq

inductive NativeInstr
  | clearTexture (texId : Nat)
  | resourceBarrier (barriers : List Transition)
  | copyBufferToBuffer (srcId dstId srcOffset dstOffset size : Nat)
  | passBody (isRender : Bool) (body : Nat)
  deriving DecidableEq

def NativeInstr.isResourceBarrier : NativeInstr → Bool
  | .resourceBarrier _ => true
  | _ => false

def setFun (f : Nat → Nat) (k v : Nat) : Nat → Nat :=
  fun x => if x = k then v else f x

def setFunB (f : Nat → Bool) (k : Nat) (v : Bool) : Nat → Bool :=
  fun x => if x = k then v else f x

/-- Modelled from the spec: `TrackUsageAndGetResourceBarrier` (not under
src/) — compare the resource's tracked current state to the required state;
a transition exactly when they differ. -/
def trackUsageAndGetBarrier (current required : Nat) : Option (Nat × Nat) :=
  if current = required then none else some (current, required)

/-- The barrier-collection loop of `PrepareResourcesForSubmission` (lines
481-489 for buffers, 505-513 for textures): one pass over the usage list,
appending a transition and updating the tracked state whenever it differs
from the required state. -/
def barrierFold (states : Nat → Nat) : List (Nat × Nat) → (Nat → Nat) × List Transition
  | [] => (states, [])
  | (id, req) :: rest =>
    match trackUsageAndGetBarrier (states id) req with
    | some fr =>
      let r := barrierFold (setFun states id req) rest
      (r.1, ⟨id, fr.1, fr.2⟩ :: r.2)
    | none => barrierFold states rest

/-- The lazy-clear loop of `PrepareResourcesForSubmission` (lines 491-501):
`EnsureSubresourceContentInitialized` over each texture whose pass usage is
not OutputAttachment — a clear and a mark-valid when it is not yet
initialized, nothing otherwise (the per-texture entry is
(id, requiredState, usageIncludesOutputAttachment)). -/
def textureClearFold (ti : Nat → Bool) :
    List (Nat × Nat × Bool) → (Nat → Bool) × List NativeInstr
  | [] => (ti, [])
  | (id, _, isOut) :: rest =>
    if isOut = false ∧ ti id = false then
      let r := textureClearFold (setFunB ti id true) rest
      (r.1, NativeInstr.clearTexture id :: r.2)
    else textureClearFold ti rest

structure PassResourceUsage where
  buffers : List (Nat × Nat)
  textures : List (Nat × Nat × Bool)

structure ResourceStates where
  bufferState : Nat → Nat
  textureState : Nat → Nat
  textureInit : Nat → Bool

/-- `PrepareResourcesForSubmission` (lines 473-521): collect buffer
transitions, lazily clear non-attachment textures, collect texture
transitions, then emit all collected transitions as one batched
`ResourceBarrier` call (emitted only when non-empty). -/
def prepareResourcesForSubmission (st : ResourceStates) (u : PassResourceUsage) :
    ResourceStates × List NativeInstr :=
  let rb := barrierFold st.bufferState u.buffers
  let rc := textureClearFold st.textureInit u.textures
  let rt := barrierFold st.textureState (u.textures.map fun t => (t.1, t.2.1))
  let barriers := rb.2 ++ rt.2
  ({ bufferState := rb.1, textureState := rt.1, textureInit := rc.1 },
    rc.2 ++ (if barriers.isEmpty then [] else [NativeInstr.resourceBarrier barriers]))

def copySrcUsage : Nat := 1
def copyDstUsage : Nat := 2

/-- Modelled from the spec: `TrackUsageAndTransitionNow` (not under src/) —
an immediate single-resource transition emitted when the tracked state
differs from the required one, as used by the top-level copy records. -/
def trackBufferUsageNow (st : ResourceStates) (id req : Nat) :
    ResourceStates × List NativeInstr :=
  if st.bufferState id = req then (st, [])
  else
    ({ st with bufferState := setFun st.bufferState id req },
      [NativeInstr.resourceBarrier [⟨id, st.bufferState id, req⟩]])

/-- The top-level command records relevant to transition ordering: passes
(whose bodies are abstract — their own records are handled by the pass
sub-loops) and buffer-to-buffer copies. The per-pass usage summary is
attached to the pass record it belongs to. -/
inductive TopCommand
  | beginPass (isRender : Bool) (usage : PassResourceUsage) (body : Nat)
  | copyBufferToBuffer (srcId dstId srcOffset dstOffset size : Nat)

/-- The `RecordCommands` top loop (lines 527-698): records are consumed in
order; a pass record first emits the batched transitions of its usage
summary, then its body; a copy record transitions its source and
destination immediately and then copies. -/
def recordCommands (st : ResourceStates) : List TopCommand → ResourceStates × List NativeInstr
  | [] => (st, [])
  | TopCommand.beginPass isRender u body :: rest =>
    let rp := prepareResourcesForSubmission st u
    let rr := recordCommands rp.1 rest
    (rr.1, rp.2 ++ [NativeInstr.passBody isRender body] ++ rr.2)
  | TopCommand.copyBufferToBuffer s d so dOff sz :: rest =>
    let r1 := trackBufferUsageNow st s copySrcUsage
    let r2 := trackBufferUsageNow r1.1 d copyDstUsage
    let rr := recordCommands r2.1 rest
    (rr.1, r1.2 ++ r2.2 ++ [NativeInstr.copyBufferToBuffer s d so dOff sz] ++ rr.2)


/-! ## Vulkan pass transitions (CommandBufferVk.cpp lines 467-859,
`TransitionForPass` and the `RecordCommands` top loop of the set-model
backend). -/

inductive VkInstr
  | pipelineBarrier (resId stateBefore stateAfter : Nat)
  | clearTexture (texId : Nat)
  | passBody (body : Nat)
  | copyBuffer (srcId dstId : Nat)
  deriving DecidableEq

def VkInstr.isBarrier : VkInstr → Bool
  | .pipelineBarrier _ _ _ => true
  | _ => false

/-- Vulkan `TransitionUsageNow` (its body is outside src/): compare the
resource's tracked state to the required one and transition exactly when
they differ, as the spec's state-tracking contract says; the barrier is
recorded into the command buffer at the point of the call — the copy
handlers inside src/ (CommandBufferVk.cpp lines 446-460 and 690-765) call it
immediately before each copy command with no later flush point, so its
emission cannot be deferred or batched. -/
def vkTransitionUsageNow (states : Nat → Nat) (id req : Nat) :
    (Nat → Nat) × List VkInstr :=
  if states id = req then (states, [])
  else (setFun states id req, [VkInstr.pipelineBarrier id (states id) req])

/-- The buffer loop of `TransitionForPass` (lines 474-477): one
`TransitionUsageNow` call — and hence one separately emitted barrier
instruction when the state differs — per buffer of the usage summary. -/
def vkBufferTransitions (states : Nat → Nat) :
    List (Nat × Nat) → (Nat → Nat) × List VkInstr
  | [] => (states, [])
  | (id, req) :: rest =>
    let r1 := vkTransitionUsageNow states id req
    let r2 := vkBufferTransitions r1.1 rest
    (r2.1, r1.2 ++ r2.2)

/-- The texture loop of `TransitionForPass` (lines 478-489): per texture a
lazy clear when its usage is not OutputAttachment and it is uninitialized,
then its own `TransitionUsageNow` call. -/
def vkTextureTransitions (texStates : Nat → Nat) (texInit : Nat → Bool) :
    List (Nat × Nat × Bool) → (Nat → Nat) × (Nat → Bool) × List VkInstr
  | [] => (texStates, texInit, [])
  | (id, req, isOut) :: rest =>
    let clearing := isOut = false ∧ texInit id = false
    let clears := if clearing then [VkInstr.clearTexture id] else []
    let init1 := if clearing then setFunB texInit id true else texInit
    let r1 := vkTransitionUsageNow texStates id req
    let r2 := vkTextureTransitions r1.1 init1 rest
    (r2.1, r2.2.1, clears ++ r1.2 ++ r2.2.2)

/-- `TransitionForPass` (lines 472-490): transition every buffer, then every
texture, of the pass's usage summary — each resource through its own
`TransitionUsageNow` call, so each differing resource yields its own barrier
instruction; there is no batching step. -/
def transitionForPass (st : ResourceStates) (u : PassResourceUsage) :
    ResourceStates × List VkInstr :=
  let rb := vkBufferTransitions st.bufferState u.buffers
  let rt := vkTextureTransitions st.textureState st.textureInit u.textures
  ({ bufferState := rb.1, textureState := rt.1, textureInit := rt.2.1 },
    rb.2 ++ rt.2.2)

/-- The top-level records of the Vulkan `RecordCommands` loop relevant to
transition ordering, mirroring `TopCommand`. -/
inductive VkTopCommand
  | beginPass (usage : PassResourceUsage) (body : Nat)
  | copyBufferToBuffer (srcId dstId : Nat)

/-- The Vulkan `RecordCommands` top loop (lines 497-856): records in order;
a pass record first runs `TransitionForPass` on its usage summary, then its
body; a copy record transitions source and destination and copies. -/
def vkRecordCommands (st : ResourceStates) :
    List VkTopCommand → ResourceStates × List VkInstr
  | [] => (st, [])
  | VkTopCommand.beginPass u body :: rest =>
    let rp := transitionForPass st u
    let rr := vkRecordCommands rp.1 rest
    (rr.1, rp.2 ++ [VkInstr.passBody body] ++ rr.2)
  | VkTopCommand.copyBufferToBuffer sId d :: rest =>
    let r1 := vkTransitionUsageNow st.bufferState sId copySrcUsage
    let r2 := vkTransitionUsageNow r1.1 d copyDstUsage
    let rr := vkRecordCommands { st with bufferState := r2.1 } rest
    (rr.1, r1.2 ++ r2.2 ++ [VkInstr.copyBuffer sId d] ++ rr.2)

/-- Claim C3, as amended: on either backend the native instruction stream is
the in-order concatenation of each record's instructions, with a pass's
transitions hoisted immediately before its body and computed by comparing
each resource's tracked state to the required one (none when they already
agree, exactly one otherwise); the D3D12 recorder batch-emits them as one
`ResourceBarrier`, while the Vulkan recorder's `TransitionForPass` emits one
barrier instruction per differing resource; afterwards every listed
resource's tracked state is the required one. -/
def C3Concl (st : ResourceStates) (pre post : List TopCommand) (isRender : Bool)
    (u : PassResourceUsage) (body : Nat) : Prop :=
  ((recordCommands st (pre ++ TopCommand.beginPass isRender u body :: post)).2 =
    (recordCommands st pre).2 ++
    (prepareResourcesForSubmission (recordCommands st pre).1 u).2 ++
    [NativeInstr.passBody isRender body] ++
    (recordCommands (prepareResourcesForSubmission (recordCommands st pre).1 u).1 post).2) ∧
  (∀ (st2 : ResourceStates) (u2 : PassResourceUsage),
    (u2.buffers.map Prod.fst).Nodup →
    ((u2.textures.map Prod.fst).Nodup →
      ∃ clears barriers,
        (prepareResourcesForSubmission st2 u2).2 =
          clears ++ (if barriers = [] then []
            else [NativeInstr.resourceBarrier barriers]) ∧
        barriers =
          u2.buffers.filterMap (fun q =>
            if st2.bufferState q.1 = q.2 then none
            else some ⟨q.1, st2.bufferState q.1, q.2⟩) ++
          (u2.textures.map fun t => (t.1, t.2.1)).filterMap (fun q =>
            if st2.textureState q.1 = q.2 then none
            else some ⟨q.1, st2.textureState q.1, q.2⟩) ∧
        (∀ c ∈ clears, ∃ i, c = NativeInstr.clearTexture i) ∧
        (∀ p ∈ u2.buffers, (prepareResourcesForSubmission st2 u2).1.bufferState p.1 = p.2) ∧
        (∀ t ∈ u2.textures,
          (prepareResourcesForSubmission st2 u2).1.textureState t.1 = t.2.1))) ∧
  (∀ (st3 : ResourceStates) (pre3 post3 : List VkTopCommand) (u3 : PassResourceUsage)
      (b3 : Nat),
    (vkRecordCommands st3 (pre3 ++ VkTopCommand.beginPass u3 b3 :: post3)).2 =
      (vkRecordCommands st3 pre3).2 ++
      (transitionForPass (vkRecordCommands st3 pre3).1 u3).2 ++
      [VkInstr.passBody b3] ++
      (vkRecordCommands (transitionForPass (vkRecordCommands st3 pre3).1 u3).1 post3).2) ∧
  (∀ (st4 : ResourceStates) (u4 : PassResourceUsage),
    (u4.buffers.map Prod.fst).Nodup →
    ((u4.textures.map Prod.fst).Nodup →
      ((transitionForPass st4 u4).2.filter VkInstr.isBarrier =
        u4.buffers.filterMap (fun q =>
          if st4.bufferState q.1 = q.2 then none
          else some (VkInstr.pipelineBarrier q.1 (st4.bufferState q.1) q.2)) ++
        (u4.textures.map fun t => (t.1, t.2.1)).filterMap (fun q =>
          if st4.textureState q.1 = q.2 then none
          else some (VkInstr.pipelineBarrier q.1 (st4.textureState q.1) q.2))) ∧
      (∀ c ∈ (transitionForPass st4 u4).2,
        VkInstr.isBarrier c = true ∨ ∃ i, c = VkInstr.clearTexture i) ∧
      (∀ p ∈ u4.buffers, (transitionForPass st4 u4).1.bufferState p.1 = p.2) ∧
      (∀ t ∈ u4.textures, (transitionForPass st4 u4).1.textureState t.1 = t.2.1)))

/-! ## Ray-tracing acceleration container records (CommandBufferVk.cpp lines
501-579 build, 596-688 update). -/

inductive ASLevel
  | bottom
  | top
  deriving DecidableEq

structure AccelerationContainer where
  id : Nat
  level : ASLevel
  allowUpdate : Bool
  built : Bool
  updated : Bool
  deriving DecidableEq

inductive VkRTInstr
  | buildAccelerationStructure (containerId : Nat) (update : Bool)
  | pipelineBarrier
  | destroyScratchBuildMemory (containerId : Nat)
  deriving DecidableEq

/-- The `BuildRayTracingAccelerationContainer` record handler (lines
501-579): a container already built is a validation error returned to the
caller; otherwise the build is recorded (with a barrier before a top-level
build when a bottom-level build preceded it in this recording, and a
trailing barrier after a top-level build) and the container is marked built.
Returns the container, the has-bottom-level-build flag and the commands. -/
def recordBuildContainer (hasBottomBuild : Bool) (c : AccelerationContainer) :
    Except String (AccelerationContainer × Bool × List VkRTInstr) :=
  if c.built then Except.error "Acceleration Container is already built"
  else
    match c.level with
    | .bottom =>
      Except.ok ({ c with built := true }, true,
        [VkRTInstr.buildAccelerationStructure c.id false])
    | .top =>
      Except.ok ({ c with built := true }, hasBottomBuild,
        (if hasBottomBuild then [VkRTInstr.pipelineBarrier] else []) ++
          [VkRTInstr.buildAccelerationStructure c.id false, VkRTInstr.pipelineBarrier])

/-- The `UpdateRayTracingAccelerationContainer` record handler (lines
596-688): a container whose flags do not allow updates, or not yet built,
is a validation error returned to the caller; a first update destroys the
scratch build memory; then the update build is recorded. -/
def recordUpdateContainer (hasBottomUpdate : Bool) (c : AccelerationContainer) :
    Except String (AccelerationContainer × Bool × List VkRTInstr) :=
  if c.allowUpdate = false then
    Except.error "Acceleration Container does not support Updates"
  else if c.built = false then
    Except.error "Acceleration Container must be built before updating"
  else
    let firstUpdate := c.built = true ∧ c.updated = false
    let c1 := if firstUpdate then { c with updated := true } else c
    let destroyEvs :=
      if firstUpdate then [VkRTInstr.destroyScratchBuildMemory c.id] else []
    match c.level with
    | .bottom =>
      Except.ok (c1, true, destroyEvs ++ [VkRTInstr.buildAccelerationStructure c.id true])
    | .top =>
      Except.ok (c1, hasBottomUpdate,
        destroyEvs ++ (if hasBottomUpdate then [VkRTInstr.pipelineBarrier] else []) ++
          [VkRTInstr.buildAccelerationStructure c.id true, VkRTInstr.pipelineBarrier])

inductive RTCommand
  | build (containerId : Nat)
  | update (containerId : Nat)
  deriving DecidableEq

/-- The `RecordCommands` consumption of ray-tracing container records:
containers addressed by identity in a store; the first validation error
aborts the recording and is returned to the caller. -/
def recordRTCommands (store : Nat → AccelerationContainer) (hasBottomBuild hasBottomUpdate : Bool) :
    List RTCommand → Except String ((Nat → AccelerationContainer) × List VkRTInstr)
  | [] => Except.ok (store, [])
  | RTCommand.build cid :: rest =>
    match recordBuildContainer hasBottomBuild (store cid) with
    | Except.error e => Except.error e
    | Except.ok r =>
      match recordRTCommands (fun i => if i = cid then r.1 else store i) r.2.1
          hasBottomUpdate rest with
      | Except.error e => Except.error e
      | Except.ok r2 => Except.ok (r2.1, r.2.2 ++ r2.2)
  | RTCommand.update cid :: rest =>
    match recordUpdateContainer hasBottomUpdate (store cid) with
    | Except.error e => Except.error e
    | Except.ok r =>
      match recordRTCommands (fun i => if i = cid then r.1 else store i) hasBottomBuild
          r.2.1 rest with
      | Except.error e => Except.error e
      | Except.ok r2 => Except.ok (r2.1, r.2.2 ++ r2.2)

/-- Claim C9, as settled: building an already-built container, updating one
whose flags forbid updates, and updating one not yet built are each a
descriptive validation error value returned to the caller, aborting the
recording; in every other case the records produce no error. -/
def C9Concl (hb hu : Bool) (c : AccelerationContainer)
    (store : Nat → AccelerationContainer) (cid : Nat) (rest : List RTCommand) : Prop :=
  (c.built = true →
    recordBuildContainer hb c = Except.error "Acceleration Container is already built") ∧
  (c.built = false → ∃ r, recordBuildContainer hb c = Except.ok r) ∧
  (c.allowUpdate = false →
    recordUpdateContainer hu c =
      Except.error "Acceleration Container does not support Updates") ∧
  (c.allowUpdate = true → c.built = false →
    recordUpdateContainer hu c =
      Except.error "Acceleration Container must be built before updating") ∧
  (c.allowUpdate = true → c.built = true →
    ∃ r, recordUpdateContainer hu c = Except.ok r) ∧
  (∀ e, recordBuildContainer hb (store cid) = Except.error e →
    recordRTCommands store hb hu (RTCommand.build cid :: rest) = Except.error e) ∧
  (∀ e, recordUpdateContainer hu (store cid) = Except.error e →
    recordRTCommands store hb hu (RTCommand.update cid :: rest) = Except.error e)

/-! ## Vulkan render-pass index-buffer assertion (CommandBufferVk.cpp lines
1240-1251). -/

structure VkRenderPipeline where
  id : Nat
  indexFormat : IndexFormat
  deriving DecidableEq

inductive VkRenderCmd
  | setRenderPipeline (p : VkRenderPipeline)
  | setIndexBuffer (bufId offset : Nat)
  | setVertexBuffer (slot bufId offset : Nat)
  | draw (vertexCount : Nat)
  deriving DecidableEq

inductive VkDrawInstr
  | cmdBindPipeline (pid : Nat)
  | cmdBindIndexBuffer (bufId offset : Nat) (ty : VkIndexType)
  | cmdBindVertexBuffers (slot bufId offset : Nat)
  | cmdDraw (vertexCount : Nat)
  deriving DecidableEq

/-- The result of running render-pass records: success carries the last
bound pipeline and the emitted commands; `assertionFailure` is the fatal
`ASSERT(lastPipeline != nullptr)`; `validationError` is the recoverable
caller-visible channel, which these records never use. -/
inductive VkRenderResult
  | ok (lastPipeline : Option VkRenderPipeline) (instrs : List VkDrawInstr)
  | assertionFailure (instrs : List VkDrawInstr)
  | validationError (msg : String)
  deriving DecidableEq

/-- One step of `RecordRenderPass` / `EncodeRenderBundleCommand` for the
embedded records (lines 1142-1276): `SetIndexBuffer` derives the index type
from the last bound pipeline and asserts one exists. -/
def vkRenderStep (lastPipeline : Option VkRenderPipeline) :
    VkRenderCmd → VkRenderResult
  | .setRenderPipeline p => .ok (some p) [VkDrawInstr.cmdBindPipeline p.id]
  | .setIndexBuffer b off =>
    match lastPipeline with
    | none => .assertionFailure []
    | some p =>
      .ok (some p) [VkDrawInstr.cmdBindIndexBuffer b off (VulkanIndexType p.indexFormat)]
  | .setVertexBuffer slot b off => .ok lastPipeline [VkDrawInstr.cmdBindVertexBuffers slot b off]
  | .draw n => .ok lastPipeline [VkDrawInstr.cmdDraw n]

def vkResultPrepend (out : List VkDrawInstr) : VkRenderResult → VkRenderResult
  | .ok lp out2 => .ok lp (out ++ out2)
  | .assertionFailure out2 => .assertionFailure (out ++ out2)
  | .validationError m => .validationError m

def vkRenderRun (lastPipeline : Option VkRenderPipeline) :
    List VkRenderCmd → VkRenderResult
  | [] => .ok lastPipeline []
  | c :: cs =>
    match vkRenderStep lastPipeline c with
    | .ok lp out => vkResultPrepend out (vkRenderRun lp cs)
    | .assertionFailure out => .assertionFailure out
    | .validationError m => .validationError m

def VkRenderCmd.isSetRenderPipeline : VkRenderCmd → Bool
  | .setRenderPipeline _ => true
  | _ => false

def VkRenderResult.isAssertionFailure : VkRenderResult → Bool
  | .assertionFailure _ => true
  | _ => false

/-- Claim C10, as settled: a `SetIndexBuffer` record processed before any
`SetRenderPipeline` of the pass is the fatal assertion (never the
recoverable validation-error channel); after a pipeline is bound,
`SetIndexBuffer` succeeds and derives the index type from that pipeline. -/
def C10Concl (pre cs : List VkRenderCmd) (b off : Nat) (p : VkRenderPipeline) : Prop :=
  ((∀ c ∈ pre, c.isSetRenderPipeline = false) →
    (vkRenderRun none (pre ++ VkRenderCmd.setIndexBuffer b off :: cs)).isAssertionFailure
      = true ∧
    ∀ m, ¬ vkRenderRun none (pre ++ VkRenderCmd.setIndexBuffer b off :: cs) =
      VkRenderResult.validationError m) ∧
  vkRenderRun none
      (VkRenderCmd.setRenderPipeline p :: VkRenderCmd.setIndexBuffer b off :: cs) =
    vkResultPrepend
      [VkDrawInstr.cmdBindPipeline p.id,
       VkDrawInstr.cmdBindIndexBuffer b off (VulkanIndexType p.indexFormat)]
      (vkRenderRun (some p) cs)

/-! ## Concrete inputs used by the witnesses and counterexamples. -/

def c2Attachment : ColorAttachment := ⟨.load, .store, true, false, true⟩

def c2DS : DepthStencilAttachment := ⟨.load, .load, .store, .store, 3, 4⟩

/-- A color attachment with Load against an uninitialized subresource whose
store op is Clear: the load op is upgraded, but the subresource is not
marked valid after the pass. -/
def c2CexAttachment : ColorAttachment := ⟨.load, .clear, false, false, false⟩

/-- A depth-stencil attachment whose depth store op is Clear but whose
stencil store op is Store: the tracker is not updated. -/
def c4CexAttachment : DepthStencilAttachment := ⟨.load, .load, .clear, .store, 5, 7⟩

/-- The mirror case: depth Store, stencil Clear, starting uninitialized. -/
def c4CexAttachment2 : DepthStencilAttachment := ⟨.load, .load, .store, .clear, 5, 7⟩

def c5Dst : TextureDesc := ⟨2, ⟨16, 16, 1⟩⟩

def c5Src : TextureDesc := ⟨1, ⟨64, 64, 1⟩⟩

def c5SizeFull : Extent3D := ⟨4, 4, 1⟩

def c7Events : List VBEvent := [VBEvent.setVertexBuffer 2 ⟨4096, 256⟩ 0]

def c7Pipeline : RenderPipeline := ⟨11, fun s => decide (s = 0), fun _ => 16⟩

def c8Tracker : IndexBufferTracker := ⟨.r16uint, ⟨10, 20, .r16uint⟩⟩

def c1Layout : D3DPipelineLayout := ⟨fun _ _ => 0, fun _ => 1, fun _ => 2⟩

def c1Group (i : Nat) : D3DBindGroup :=
  { id := i
    descriptorSize := 3
    dynamicBindings := []
    bindingKind := fun _ => .uniformBuffer
    bindingBufferVA := fun _ => 0
    bindingOffset := fun _ => 0
    cbvUavSrvCount := 1
    samplerCount := 0
    baseCbvUavSrvDescriptor := 10 + i
    baseSamplerDescriptor := 0 }

/-- Two bound groups of three descriptors each, both dirty. -/
def c1Tracker : BindGroupStateTracker :=
  { inCompute := false
    pipelineLayout := c1Layout
    bindGroupLayoutsMask := fun i => decide (i < 2)
    dirtyBindGroups := fun i => decide (i < 2)
    dirtyBindGroupsObjectChangedOrIsDynamic := fun i => decide (i < 2)
    bindGroups := c1Group
    dynamicOffsetCounts := fun _ => 0
    dynamicOffsets := fun _ => [] }

/-- A heap generation with room for one group but not both: the first
realization of the dirty groups fails, while a fresh generation (capacity 6)
fits the whole mask. -/
def c1Alloc : ShaderVisibleAllocator := ⟨0, 6, 5⟩

def c6Group : D3DBindGroup :=
  { id := 7
    descriptorSize := 2
    dynamicBindings := [0]
    bindingKind := fun _ => .uniformBuffer
    bindingBufferVA := fun _ => 1000
    bindingOffset := fun _ => 16
    cbvUavSrvCount := 1
    samplerCount := 0
    baseCbvUavSrvDescriptor := 5
    baseSamplerDescriptor := 0 }

def c6Tracker : BindGroupStateTracker :=
  { inCompute := false
    pipelineLayout := c1Layout
    bindGroupLayoutsMask := fun i => decide (i < 1)
    dirtyBindGroups := fun _ => false
    dirtyBindGroupsObjectChangedOrIsDynamic := fun _ => false
    bindGroups := fun _ => c1Group 99
    dynamicOffsetCounts := fun _ => 0
    dynamicOffsets := fun _ => [] }

def c6Alloc : ShaderVisibleAllocator := ⟨0, 100, 0⟩

def c3State : ResourceStates :=
  { bufferState := fun _ => 0
    textureState := fun _ => 0
    textureInit := fun _ => false }

def c3Usage : PassResourceUsage :=
  { buffers := [(1, 4), (2, 0)]
    textures := [(3, 5, false)]
  }

def c3Pre : List TopCommand := [TopCommand.copyBufferToBuffer 1 2 0 0 8]

/-- A pass usage summary listing two buffers that both need transitions: the
Vulkan recorder emits two separate barrier instructions for it. -/
def c3VkState : ResourceStates :=
  { bufferState := fun _ => 0
    textureState := fun _ => 0
    textureInit := fun _ => true }

def c3VkUsage : PassResourceUsage :=
  { buffers := [(1, 4), (2, 5)]
    textures := []
  }

def c3Post : List TopCommand := []

def c9Container : AccelerationContainer :=
  { id := 1, level := .bottom, allowUpdate := true, built := false, updated := false }

def c9Store : Nat → AccelerationContainer := fun _ =>
  { id := 0, level := .bottom, allowUpdate := false, built := true, updated := false }

def c10Pre : List VkRenderCmd := [VkRenderCmd.draw 1]

def c10Pipeline : VkRenderPipeline := ⟨3, .uint16⟩

/-! ## Theorems. -/

/-- C2. The claim states that an attachment whose requested Load is upgraded
(uninitialized subresource) is "marked valid regardless of the upgrade"
after the pass. The code marks the subresource per the store operation, so a
Clear store op leaves it invalid: here an upgraded color attachment with
store op Clear ends uninitialized. -/
theorem c2_load_upgrade_cex :
    (processColorAttachment c2CexAttachment).effLoadOp = LoadOp.clear ∧
    (processColorAttachment c2CexAttachment).viewInitAfter = false := by
  decide

/-- C2, amended: a Load against an uninitialized subresource is recorded as
an effective Clear (zeroed clear values for depth/stencil), an initialized
subresource keeps its requested load op, and the after-pass initialization
bit follows the store operation (valid exactly when Store). -/
theorem c2_load_upgrade (a : ColorAttachment) (hasDepth hasStencil initB : Bool)
    (d : DepthStencilAttachment) : C2Concl a hasDepth hasStencil initB d := by
  unfold C2Concl
  refine ⟨?_, ?_, ?_, ?_, ?_, ?_⟩
  · intro h1 h2
    simp [processColorAttachment, h1, h2]
  · intro h
    simp [processColorAttachment, h]
  · cases hs : a.storeOp <;> simp [processColorAttachment, hs]
  · intro h1 h2 h3
    simp [processDepthStencilAttachment, h1, h2, h3]
  · intro h1 h2 h3
    simp [processDepthStencilAttachment, h1, h2, h3]
  · intro h
    simp [processDepthStencilAttachment, h]

/-- Witness for C2 at a concrete attachment pair. -/
theorem c2_load_upgrade_witness : C2Concl c2Attachment true true false c2DS :=
  c2_load_upgrade c2Attachment true true false c2DS

/-- C4. The claim states that after the pass every attachment's tracker
entry follows its store operation (Store → valid, Clear → invalid). For a
depth-stencil attachment with disagreeing depth/stencil store operations the
code leaves the tracker unchanged: a Clear depth store op leaves a valid
subresource valid, and a Store depth store op leaves an invalid one
invalid. -/
theorem c4_store_update_cex :
    (processDepthStencilAttachment true true true c4CexAttachment).initAfter = true ∧
    c4CexAttachment.depthStoreOp = StoreOp.clear ∧
    (processDepthStencilAttachment true true false c4CexAttachment2).initAfter = false ∧
    c4CexAttachment2.depthStoreOp = StoreOp.store := by
  decide

/-- C4, amended: a color attachment's subresource is valid after the pass
exactly when its store op is Store; a declared resolve target is always
marked valid; the depth-stencil tracker entry is updated only when both
store operations agree and is otherwise left unchanged. -/
theorem c4_store_update (a : ColorAttachment) (hasDepth hasStencil initB : Bool)
    (d : DepthStencilAttachment) : C4Concl a hasDepth hasStencil initB d := by
  unfold C4Concl
  refine ⟨?_, ?_, ?_, ?_, ?_, ?_⟩
  · intro h
    simp [processColorAttachment, h]
  · intro h
    simp [processColorAttachment, h]
  · intro h
    simp [processColorAttachment, h]
  · intro h1 h2
    simp [processDepthStencilAttachment, h1, h2]
  · intro h1 h2
    simp [processDepthStencilAttachment, h1, h2]
  · intro h
    cases h1 : d.depthStoreOp <;> cases h2 : d.stencilStoreOp <;>
      simp [h1, h2] at h ⊢ <;>
      simp [processDepthStencilAttachment, h1, h2]

/-- Witness for C4 at a concrete attachment pair. -/
theorem c4_store_update_witness : C4Concl c2Attachment true true false c2DS :=
  c4_store_update c2Attachment true true false c2DS

/-- C5: a copy whose destination extent equals the full destination
subresource extent only marks the destination valid (no ensure on the
destination subresource); a partial copy ensures the destination before the
copy instruction. -/
theorem c5_complete_copy (src dst : TextureDesc)
    (srcMip srcLayer dstMip dstLayer bufId : Nat) (copySize : Extent3D) :
    C5Concl src dst srcMip srcLayer dstMip dstLayer bufId copySize := by
  unfold C5Concl
  constructor
  · intro hc
    refine ⟨?_, ?_, ?_, ?_⟩
    · intro hne
      have hsym : ¬ (dst.id = src.id ∧ dstMip = srcMip ∧ dstLayer = srcLayer) := by
        rintro ⟨h1, h2, h3⟩
        exact hne ⟨h1.symm, h2.symm, h3.symm⟩
      simp [copyTextureToTextureActions, hc, hsym]
    · simp [copyTextureToTextureActions, hc]
    · simp [copyBufferToTextureActions, hc]
    · simp [copyBufferToTextureActions, hc]
  · intro hc
    refine ⟨?_, ?_, ?_⟩
    · simp [copyTextureToTextureActions, hc]
    · simp [copyBufferToTextureActions, hc]
    · simp [copyTextureToTextureActions, hc]

/-- Witness for C5 at a full-subresource copy (`16×16` texture, mip 2, copy
extent `4×4×1`). -/
theorem c5_complete_copy_witness : C5Concl c5Src c5Dst 0 0 2 0 9 c5SizeFull :=
  c5_complete_copy c5Src c5Dst 0 0 2 0 9 c5SizeFull

/-- C9: a build of an already-built container, an update of a container
whose flags forbid updates, and an update of a container not yet built are
each a descriptive validation error returned to the caller, and they abort
the recording loop; all other cases produce no error. -/
theorem c9_container_validation (hb hu : Bool) (c : AccelerationContainer)
    (store : Nat → AccelerationContainer) (cid : Nat) (rest : List RTCommand) :
    C9Concl hb hu c store cid rest := by
  unfold C9Concl
  refine ⟨?_, ?_, ?_, ?_, ?_, ?_, ?_⟩
  · intro h
    simp [recordBuildContainer, h]
  · intro h
    cases hl : c.level <;> simp [recordBuildContainer, h, hl]
  · intro h
    simp [recordUpdateContainer, h]
  · intro h1 h2
    simp [recordUpdateContainer, h1, h2]
  · intro h1 h2
    cases hl : c.level <;> simp [recordUpdateContainer, h1, h2, hl]
  · intro e he
    simp [recordRTCommands, he]
  · intro e he
    simp [recordRTCommands, he]

/-- Witness for C9: an updatable bottom-level container not yet built, and a
store whose container 0 is built but not updatable. -/
theorem c9_container_validation_witness :
    C9Concl true false c9Container c9Store 0 [RTCommand.build 0] :=
  c9_container_validation true false c9Container c9Store 0 [RTCommand.build 0]

/-- C8. The claim states the index tracker reapplies only when the resulting
native descriptor actually differs from the last applied one. Re-setting the
same buffer at the same offset resets the last-applied format, so the second
`Apply` rebinds an identical descriptor: the run emits the same bind
twice. -/
theorem c8_index_tracker_cex :
    (ibtRun ibtInit ibtCexEvents).2 =
      [IBInstr.iaSetIndexBuffer ibtCexView, IBInstr.iaSetIndexBuffer ibtCexView] := by
  decide

/-- C8, amended: `Apply` is idempotent; an unchanged pipeline-derived format
after an `Apply` emits nothing; any `SetIndexBuffer` forces the next `Apply`
to emit exactly one bind, even when the resulting descriptor is unchanged;
an `Apply` emits at most one bind and emits nothing exactly when the view's
format matches the last applied one. -/
theorem c8_index_tracker (t : IndexBufferTracker) (b : D3DBuffer) (off : Nat)
    (fmt : IndexFormat) : C8Concl t b off fmt := by
  unfold C8Concl
  refine ⟨?_, ?_, ?_, ?_, ?_⟩
  · by_cases h : t.view.format = t.lastAppliedIndexFormat
    · simp [ibtApply, h]
    · simp [ibtApply, h]
  · intro h
    simp [ibtApply, ibtOnSetPipeline, h]
  · intro h
    simp [ibtApply, ibtOnSetIndexBuffer, h]
  · by_cases h : t.view.format = t.lastAppliedIndexFormat
    · simp [ibtApply, h]
    · simp [ibtApply, h]
  · by_cases h : t.view.format = t.lastAppliedIndexFormat
    · simp [ibtApply, h]
    · simp [ibtApply, h]

/-- Witness for C8 at a concrete tracker state. -/
theorem c8_index_tracker_witness : C8Concl c8Tracker ⟨5, 50⟩ 0 IndexFormat.uint32 :=
  c8_index_tracker c8Tracker ⟨5, 50⟩ 0 IndexFormat.uint32


/-- Prepending no instructions is the identity. -/
theorem vkResultPrepend_nil (r : VkRenderResult) : vkResultPrepend [] r = r := by
  cases r <;> simp [vkResultPrepend]

/-- Prepending emitted instructions composes. -/
theorem vkResultPrepend_comp (a b : List VkDrawInstr) (r : VkRenderResult) :
    vkResultPrepend a (vkResultPrepend b r) = vkResultPrepend (a ++ b) r := by
  cases r <;> simp [vkResultPrepend]

/-- Sequencing of render-pass results: continue with `k` on success, keep
the failure otherwise. -/
def vkResultThen (r : VkRenderResult) (k : Option VkRenderPipeline → VkRenderResult) :
    VkRenderResult :=
  match r with
  | .ok lp out => vkResultPrepend out (k lp)
  | .assertionFailure out => .assertionFailure out
  | .validationError m => .validationError m

theorem vkResultThen_prepend (out : List VkDrawInstr) (r : VkRenderResult)
    (k : Option VkRenderPipeline → VkRenderResult) :
    vkResultThen (vkResultPrepend out r) k = vkResultPrepend out (vkResultThen r k) := by
  cases r with
  | ok lp instrs =>
    show vkResultPrepend (out ++ instrs) (k lp) =
      vkResultPrepend out (vkResultPrepend instrs (k lp))
    rw [vkResultPrepend_comp]
  | assertionFailure instrs => rfl
  | validationError m => rfl

/-- Running an appended record list composes through the step results. -/
theorem vkRenderRun_append (l1 l2 : List VkRenderCmd) :
    ∀ lp, vkRenderRun lp (l1 ++ l2) =
      vkResultThen (vkRenderRun lp l1) fun lp' => vkRenderRun lp' l2 := by
  induction l1 with
  | nil =>
    intro lp
    show vkRenderRun lp l2 = vkResultPrepend [] (vkRenderRun lp l2)
    rw [vkResultPrepend_nil]
  | cons c cs ih =>
    intro lp
    show (match vkRenderStep lp c with
        | VkRenderResult.ok lp2 out => vkResultPrepend out (vkRenderRun lp2 (cs ++ l2))
        | VkRenderResult.assertionFailure out => VkRenderResult.assertionFailure out
        | VkRenderResult.validationError m => VkRenderResult.validationError m) =
      vkResultThen
        (match vkRenderStep lp c with
          | VkRenderResult.ok lp2 out => vkResultPrepend out (vkRenderRun lp2 cs)
          | VkRenderResult.assertionFailure out => VkRenderResult.assertionFailure out
          | VkRenderResult.validationError m => VkRenderResult.validationError m)
        fun lp' => vkRenderRun lp' l2
    cases vkRenderStep lp c with
    | ok lp2 out =>
      show vkResultPrepend out (vkRenderRun lp2 (cs ++ l2)) =
        vkResultThen (vkResultPrepend out (vkRenderRun lp2 cs)) fun lp' => vkRenderRun lp' l2
      rw [ih lp2, vkResultThen_prepend]
    | assertionFailure out => rfl
    | validationError m => rfl

/-- Running render-pass records from a state with no pipeline bound, over a
record list with no `SetRenderPipeline`, either succeeds with still no
pipeline bound or hits the index-buffer assertion. -/
theorem vkRenderRun_no_pipeline (pre : List VkRenderCmd)
    (h : ∀ c ∈ pre, c.isSetRenderPipeline = false) :
    (∃ out, vkRenderRun none pre = VkRenderResult.ok none out) ∨
    (∃ out, vkRenderRun none pre = VkRenderResult.assertionFailure out) := by
  induction pre with
  | nil => exact Or.inl ⟨[], rfl⟩
  | cons c cs ih =>
    have hc := h c (List.mem_cons_self c cs)
    have hcs := fun c' hc' => h c' (List.mem_cons_of_mem c hc')
    cases c with
    | setRenderPipeline p => simp [VkRenderCmd.isSetRenderPipeline] at hc
    | setIndexBuffer b off => exact Or.inr ⟨[], rfl⟩
    | setVertexBuffer slot b off =>
      rcases ih hcs with ⟨out, ho⟩ | ⟨out, ho⟩
      · refine Or.inl ⟨VkDrawInstr.cmdBindVertexBuffers slot b off :: out, ?_⟩
        show vkResultPrepend [VkDrawInstr.cmdBindVertexBuffers slot b off]
          (vkRenderRun none cs) = _
        rw [ho]; rfl
      · refine Or.inr ⟨VkDrawInstr.cmdBindVertexBuffers slot b off :: out, ?_⟩
        show vkResultPrepend [VkDrawInstr.cmdBindVertexBuffers slot b off]
          (vkRenderRun none cs) = _
        rw [ho]; rfl
    | draw n =>
      rcases ih hcs with ⟨out, ho⟩ | ⟨out, ho⟩
      · refine Or.inl ⟨VkDrawInstr.cmdDraw n :: out, ?_⟩
        show vkResultPrepend [VkDrawInstr.cmdDraw n] (vkRenderRun none cs) = _
        rw [ho]; rfl
      · refine Or.inr ⟨VkDrawInstr.cmdDraw n :: out, ?_⟩
        show vkResultPrepend [VkDrawInstr.cmdDraw n] (vkRenderRun none cs) = _
        rw [ho]; rfl

/-- C10: a `SetIndexBuffer` processed with no pipeline ever bound in the
pass is the fatal assertion (never the recoverable validation-error
channel); once a pipeline is bound, `SetIndexBuffer` emits the native bind
with the index type derived from that pipeline. -/
theorem c10_index_buffer_assert (pre cs : List VkRenderCmd) (b off : Nat)
    (p : VkRenderPipeline) : C10Concl pre cs b off p := by
  unfold C10Concl
  constructor
  · intro h
    have hrun := vkRenderRun_append pre (VkRenderCmd.setIndexBuffer b off :: cs) none
    have hstep : vkRenderRun none (VkRenderCmd.setIndexBuffer b off :: cs) =
        VkRenderResult.assertionFailure [] := rfl
    rcases vkRenderRun_no_pipeline pre h with ⟨out, ho⟩ | ⟨out, ho⟩
    · have hall : vkRenderRun none (pre ++ VkRenderCmd.setIndexBuffer b off :: cs) =
          VkRenderResult.assertionFailure (out ++ []) := by
        rw [hrun, ho]
        show vkResultPrepend out (vkRenderRun none (VkRenderCmd.setIndexBuffer b off :: cs)) = _
        rw [hstep]; rfl
      rw [hall]
      exact ⟨rfl, fun m hm => by cases hm⟩
    · have hall : vkRenderRun none (pre ++ VkRenderCmd.setIndexBuffer b off :: cs) =
          VkRenderResult.assertionFailure out := by
        rw [hrun, ho]; rfl
      rw [hall]
      exact ⟨rfl, fun m hm => by cases hm⟩
  · have h1 : vkRenderRun none
        (VkRenderCmd.setRenderPipeline p :: VkRenderCmd.setIndexBuffer b off :: cs) =
        vkResultPrepend [VkDrawInstr.cmdBindPipeline p.id]
          (vkResultPrepend
            [VkDrawInstr.cmdBindIndexBuffer b off (VulkanIndexType p.indexFormat)]
            (vkRenderRun (some p) cs)) := rfl
    rw [h1, vkResultPrepend_comp]
    rfl

/-- Witness for C10: a draw precedes the index-buffer set with no pipeline
bound. -/
theorem c10_index_buffer_assert_witness : C10Concl c10Pre [] 4 8 c10Pipeline :=
  c10_index_buffer_assert c10Pre [] 4 8 c10Pipeline

theorem foldl_min_le (l : List Nat) (a : Nat) : l.foldl min a ≤ a := by
  induction l generalizing a with
  | nil => exact le_refl a
  | cons x xs ih => exact le_trans (ih (min a x)) (min_le_left a x)

theorem foldl_min_le_mem (l : List Nat) (a s : Nat) (h : s ∈ l) : l.foldl min a ≤ s := by
  induction l generalizing a with
  | nil => cases h
  | cons x xs ih =>
    rcases List.mem_cons.1 h with h1 | h1
    · subst h1
      exact le_trans (foldl_min_le xs (min a s)) (min_le_right a s)
    · exact ih (min a x) h1

theorem le_foldl_maxSucc (l : List Nat) (a : Nat) : a ≤ l.foldl maxSucc a := by
  induction l generalizing a with
  | nil => exact le_refl a
  | cons x xs ih => exact le_trans (le_max_left a (x + 1)) (ih (maxSucc a x))

theorem mem_le_foldl_maxSucc (l : List Nat) (a s : Nat) (h : s ∈ l) :
    s + 1 ≤ l.foldl maxSucc a := by
  induction l generalizing a with
  | nil => cases h
  | cons x xs ih =>
    rcases List.mem_cons.1 h with h1 | h1
    · subst h1
      exact le_trans (le_max_right a (s + 1)) (le_foldl_maxSucc xs (maxSucc a s))
    · exact ih (maxSucc a x) h1

theorem vbtWiden_startSlot_le (t : VertexBufferTracker) (p : RenderPipeline) :
    (vbtWiden t p).startSlot ≤ t.startSlot := by
  unfold vbtWiden
  by_cases h : t.lastAppliedRenderPipeline = some p.id
  · rw [if_pos h]
  · rw [if_neg h]
    exact foldl_min_le _ _

theorem vbtWiden_endSlot_ge (t : VertexBufferTracker) (p : RenderPipeline) :
    t.endSlot ≤ (vbtWiden t p).endSlot := by
  unfold vbtWiden
  by_cases h : t.lastAppliedRenderPipeline = some p.id
  · rw [if_pos h]
  · rw [if_neg h]
    exact le_foldl_maxSucc _ _

theorem vbtWiden_used_cov (t : VertexBufferTracker) (p : RenderPipeline)
    (h : ¬ t.lastAppliedRenderPipeline = some p.id) (s : Nat) (hs : s ∈ usedSlots p) :
    (vbtWiden t p).startSlot ≤ s ∧ s + 1 ≤ (vbtWiden t p).endSlot := by
  unfold vbtWiden
  rw [if_neg h]
  exact ⟨foldl_min_le_mem _ _ _ hs, mem_le_foldl_maxSucc _ _ _ hs⟩

theorem vbtWiden_used_stride (t : VertexBufferTracker) (p : RenderPipeline)
    (h : ¬ t.lastAppliedRenderPipeline = some p.id) (s : Nat) (hs : s ∈ usedSlots p) :
    ((vbtWiden t p).bufferViews s).strideInBytes = p.arrayStride s := by
  unfold vbtWiden
  rw [if_neg h]
  simp [hs]

/-- The behavior of one `Apply` given that the tracker's dirty range covers
every slot of `pend`. -/
theorem vbtApply_spec (t : VertexBufferTracker) (p : RenderPipeline) (pend : List Nat)
    (hcov : ∀ s ∈ pend, t.startSlot ≤ s ∧ s + 1 ≤ t.endSlot) :
    (∀ s ∈ pend, VBCovers (vbtApply t p).2 s) ∧
    (¬ t.lastAppliedRenderPipeline = some p.id →
      ∀ s ∈ usedSlots p,
        VBCovers (vbtApply t p).2 s ∧
        ((vbtApply t p).1.bufferViews s).strideInBytes = p.arrayStride s) ∧
    (vbtApply t p).1.endSlot ≤ (vbtApply t p).1.startSlot ∧
    ((vbtApply t p).2 = [] ∨
      ∃ st cnt, 0 < cnt ∧
        (vbtApply t p).2 =
          [VBInstr.iaSetVertexBuffers st cnt
            ((List.range cnt).map fun i => (vbtApply t p).1.bufferViews (st + i))]) := by
  have happ : vbtApply t p =
      if (vbtWiden t p).endSlot ≤ (vbtWiden t p).startSlot then (vbtWiden t p, [])
      else
        ({ vbtWiden t p with startSlot := kMaxVertexBuffers, endSlot := 0 },
          [VBInstr.iaSetVertexBuffers (vbtWiden t p).startSlot
            ((vbtWiden t p).endSlot - (vbtWiden t p).startSlot)
            ((List.range ((vbtWiden t p).endSlot - (vbtWiden t p).startSlot)).map fun i =>
              (vbtWiden t p).bufferViews ((vbtWiden t p).startSlot + i))]) := rfl
  by_cases hle : (vbtWiden t p).endSlot ≤ (vbtWiden t p).startSlot
  · rw [happ, if_pos hle]
    refine ⟨?_, ?_, hle, Or.inl rfl⟩
    · intro s hs
      rcases hcov s hs with ⟨h1, h2⟩
      exact absurd (lt_of_le_of_lt (le_trans (vbtWiden_startSlot_le t p) h1)
        (lt_of_lt_of_le (Nat.lt_of_lt_of_le (Nat.lt_succ_self s) h2) (vbtWiden_endSlot_ge t p)))
        (not_lt.2 hle)
    · intro hpc s hs
      rcases vbtWiden_used_cov t p hpc s hs with ⟨h1, h2⟩
      exact absurd (lt_of_le_of_lt h1 (Nat.lt_of_lt_of_le (Nat.lt_succ_self s) h2))
        (not_lt.2 hle)
  · rw [happ, if_neg hle]
    have hlt : (vbtWiden t p).startSlot < (vbtWiden t p).endSlot := not_le.1 hle
    have hcnt : 0 < (vbtWiden t p).endSlot - (vbtWiden t p).startSlot := by omega
    have hsum : (vbtWiden t p).startSlot +
        ((vbtWiden t p).endSlot - (vbtWiden t p).startSlot) = (vbtWiden t p).endSlot := by
      omega
    refine ⟨?_, ?_, ?_, ?_⟩
    · intro s hs
      rcases hcov s hs with ⟨h1, h2⟩
      exact ⟨(vbtWiden t p).startSlot, (vbtWiden t p).endSlot - (vbtWiden t p).startSlot, _,
        rfl, le_trans (vbtWiden_startSlot_le t p) h1,
        by rw [hsum]; exact lt_of_lt_of_le (Nat.lt_of_succ_le h2) (vbtWiden_endSlot_ge t p)⟩
    · intro hpc s hs
      rcases vbtWiden_used_cov t p hpc s hs with ⟨h1, h2⟩
      exact ⟨⟨(vbtWiden t p).startSlot, (vbtWiden t p).endSlot - (vbtWiden t p).startSlot, _,
        rfl, h1, by rw [hsum]; exact Nat.lt_of_succ_le h2⟩,
        vbtWiden_used_stride t p hpc s hs⟩
    · show (0 : Nat) ≤ kMaxVertexBuffers
      exact Nat.zero_le _
    · exact Or.inr ⟨(vbtWiden t p).startSlot,
        (vbtWiden t p).endSlot - (vbtWiden t p).startSlot, hcnt, rfl⟩

/-- Running the tracker keeps every slot set since the last `Apply` inside
the dirty range. -/
theorem vbtRun_covers (es : List VBEvent) :
    ∀ (t : VertexBufferTracker) (acc : List Nat),
      (∀ s ∈ acc, t.startSlot ≤ s ∧ s + 1 ≤ t.endSlot) →
      ∀ s ∈ es.foldl
        (fun acc e =>
          match e with
          | VBEvent.setVertexBuffer slot _ _ => slot :: acc
          | VBEvent.applyDraw _ => [])
        acc,
        (vbtRun t es).1.startSlot ≤ s ∧ s + 1 ≤ (vbtRun t es).1.endSlot := by
  induction es with
  | nil => intro t acc hacc; exact hacc
  | cons e es ih =>
    intro t acc hacc
    cases e with
    | setVertexBuffer slot b off =>
      refine ih (onSetVertexBuffer t slot b off) (slot :: acc) ?_
      intro s hs
      rcases List.mem_cons.1 hs with h1 | h1
      · subst h1
        exact ⟨min_le_right _ _, le_max_right _ _⟩
      · rcases hacc s h1 with ⟨h2, h3⟩
        exact ⟨le_trans (min_le_left _ _) h2, le_trans h3 (le_max_left _ _)⟩
    | applyDraw p =>
      refine ih (vbtApply t p).1 [] ?_
      intro s hs
      cases hs

/-- C7: after any event history, an `Apply` issues at most one contiguous
bind; it covers every slot set since the previous `Apply` and — on a
pipeline change — every slot the new pipeline uses, whose strides it
refreshes into the bound views; afterwards the dirty range is empty. -/
theorem c7_vertex_dirty_range (es : List VBEvent) (p : RenderPipeline) : C7Concl es p := by
  unfold C7Concl
  exact vbtApply_spec (vbtRun vbtInit es).1 p (pendingSlots es)
    (vbtRun_covers es vbtInit [] (fun s hs => absurd hs (List.not_mem_nil s)))

/-- Witness for C7 at a concrete event history and pipeline. -/
theorem c7_vertex_dirty_range_witness : C7Concl c7Events c7Pipeline :=
  c7_vertex_dirty_range c7Events c7Pipeline

theorem populateGroups_generation (tr : BindGroupStateTracker) (l : List Nat) :
    ∀ a : ShaderVisibleAllocator, (populateGroups a tr l).1.generation = a.generation := by
  induction l with
  | nil => intro a; rfl
  | cons i rest ih =>
    intro a
    by_cases h : a.used + (tr.bindGroups i).descriptorSize ≤ a.capacity
    · simp [populateGroups, tryPopulate, h]
      exact ih _
    · simp [populateGroups, tryPopulate, h]

theorem populateGroups_capacity (tr : BindGroupStateTracker) (l : List Nat) :
    ∀ a : ShaderVisibleAllocator, (populateGroups a tr l).1.capacity = a.capacity := by
  induction l with
  | nil => intro a; rfl
  | cons i rest ih =>
    intro a
    by_cases h : a.used + (tr.bindGroups i).descriptorSize ≤ a.capacity
    · simp [populateGroups, tryPopulate, h]
      exact ih _
    · simp [populateGroups, tryPopulate, h]

/-- When the listed groups fit in the remaining space, the populate loop
succeeds and realizes exactly the listed groups in order, in the current
generation. -/
theorem populateGroups_spec (tr : BindGroupStateTracker) (l : List Nat) :
    ∀ a : ShaderVisibleAllocator,
      a.used + (l.map fun i => (tr.bindGroups i).descriptorSize).sum ≤ a.capacity →
      (populateGroups a tr l).2.2 = true ∧
      (populateGroups a tr l).2.1 =
        l.map fun i => D3DEvent.populate (tr.bindGroups i).id a.generation := by
  induction l with
  | nil => intro a _; exact ⟨rfl, rfl⟩
  | cons i rest ih =>
    intro a hfit
    simp only [List.map_cons, List.sum_cons] at hfit
    have h1 : a.used + (tr.bindGroups i).descriptorSize ≤ a.capacity := by omega
    have h2 : a.used + (tr.bindGroups i).descriptorSize +
        (rest.map fun j => (tr.bindGroups j).descriptorSize).sum ≤ a.capacity := by omega
    obtain ⟨hres, hevs⟩ := ih { a with used := a.used + (tr.bindGroups i).descriptorSize } h2
    constructor
    · simp [populateGroups, tryPopulate, h1, hres]
    · simp [populateGroups, tryPopulate, h1, hevs]

theorem populateGroups_isPopulate (tr : BindGroupStateTracker) (l : List Nat) :
    ∀ a : ShaderVisibleAllocator, ∀ e ∈ (populateGroups a tr l).2.1,
      e.isPopulate = true := by
  induction l with
  | nil => intro a e he; cases he
  | cons i rest ih =>
    intro a e he
    by_cases h : a.used + (tr.bindGroups i).descriptorSize ≤ a.capacity
    · simp [populateGroups, tryPopulate, h] at he
      rcases he with rfl | he2
      · rfl
      · exact ih _ e he2
    · simp [populateGroups, tryPopulate, h] at he
      rw [he]
      rfl

theorem applyBindGroup_binding (inC : Bool) (lay : D3DPipelineLayout) (idx : Nat)
    (g : D3DBindGroup) (cnt : Nat) (offs : List Nat) (dirty : Bool) :
    ∀ e ∈ applyBindGroup inC lay idx g cnt offs dirty, e.isBindingInstr = true := by
  intro e he
  simp only [applyBindGroup] at he
  by_cases hd : dirty = true
  · rw [if_pos hd] at he
    rcases List.mem_append.1 he with he1 | he2
    · rcases List.mem_append.1 he1 with he3 | he4
      · by_cases hc : cnt ≠ 0
        · rw [if_pos hc] at he3
          obtain ⟨bi, _, rfl⟩ := List.mem_map.1 he3
          rfl
        · rw [if_neg hc] at he3
          cases he3
      · by_cases h4 : 0 < g.cbvUavSrvCount
        · rw [if_pos h4] at he4
          rcases List.mem_singleton.1 he4 with rfl
          rfl
        · rw [if_neg h4] at he4
          cases he4
    · by_cases h5 : 0 < g.samplerCount
      · rw [if_pos h5] at he2
        rcases List.mem_singleton.1 he2 with rfl
        rfl
      · rw [if_neg h5] at he2
        cases he2
  · rw [if_neg hd] at he
    by_cases hc : cnt ≠ 0
    · rw [if_pos hc] at he
      obtain ⟨bi, _, rfl⟩ := List.mem_map.1 he
      rfl
    · rw [if_neg hc] at he
      cases he

theorem applyDirtyBindGroups_binding (tr : BindGroupStateTracker) :
    ∀ e ∈ applyDirtyBindGroups tr, e.isBindingInstr = true := by
  intro e he
  simp only [applyDirtyBindGroups, List.mem_flatMap] at he
  obtain ⟨i, _, he2⟩ := he
  exact applyBindGroup_binding _ _ _ _ _ _ _ e he2

/-- `Apply` never yields the caller-visible error outcome: graceful
exhaustion is recovered by the heap switch, and a retry failure is the
fatal assertion. -/
theorem bgApply_no_error (tr : BindGroupStateTracker) (al : ShaderVisibleAllocator) :
    ¬ (bgApply tr al).outcome = ApplyOutcome.error := by
  simp only [bgApply]
  split
  · simp
  · split
    · simp
    · simp

/-- C1: on exhaustion of the first realization pass, `Apply` switches to a
new heap generation, marks the whole layout mask dirty, rebinds the heaps,
re-realizes every mask slot before any binding instruction, and — the mask's
groups fitting one fresh heap — the retry succeeds; a caller-visible error
is never produced. -/
theorem c1_heap_switch_retry (tr : BindGroupStateTracker) (alloc : ShaderVisibleAllocator)
    (hfail : (populateGroups alloc tr (maskList tr.dirtyBindGroups)).2.2 = false)
    (hfit : maskDescriptorSize tr ≤ alloc.capacity) :
    C1Concl tr alloc := by
  unfold C1Concl
  have hfit2 : (switchGeneration (populateGroups alloc tr (maskList tr.dirtyBindGroups)).1).used +
      ((maskList (heapSwitchMarkAllDirty tr).bindGroupLayoutsMask).map fun i =>
        ((heapSwitchMarkAllDirty tr).bindGroups i).descriptorSize).sum ≤
      (switchGeneration (populateGroups alloc tr (maskList tr.dirtyBindGroups)).1).capacity := by
    have hc : (switchGeneration
        (populateGroups alloc tr (maskList tr.dirtyBindGroups)).1).capacity = alloc.capacity :=
      populateGroups_capacity tr _ alloc
    rw [hc]
    show 0 + _ ≤ alloc.capacity
    rw [Nat.zero_add]
    exact hfit
  obtain ⟨hretry1, hretry2⟩ := populateGroups_spec (heapSwitchMarkAllDirty tr)
    (maskList (heapSwitchMarkAllDirty tr).bindGroupLayoutsMask)
    (switchGeneration (populateGroups alloc tr (maskList tr.dirtyBindGroups)).1) hfit2
  have hgen : (switchGeneration
      (populateGroups alloc tr (maskList tr.dirtyBindGroups)).1).generation =
      alloc.generation + 1 := by
    show (populateGroups alloc tr (maskList tr.dirtyBindGroups)).1.generation + 1 =
      alloc.generation + 1
    rw [populateGroups_generation]
  have hcond1 : ¬ ((populateGroups alloc tr (maskList tr.dirtyBindGroups)).2.2 = true) := by
    rw [hfail]
    simp
  have hb : bgApply tr alloc =
      { outcome := ApplyOutcome.ok
        tracker := didApply (heapSwitchMarkAllDirty tr)
        alloc := (populateGroups
          (switchGeneration (populateGroups alloc tr (maskList tr.dirtyBindGroups)).1)
          (heapSwitchMarkAllDirty tr)
          (maskList (heapSwitchMarkAllDirty tr).bindGroupLayoutsMask)).1
        events := (populateGroups alloc tr (maskList tr.dirtyBindGroups)).2.1 ++
          [D3DEvent.switchHeaps (alloc.generation + 1),
           D3DEvent.setDescriptorHeaps (alloc.generation + 1)] ++
          ((maskList tr.bindGroupLayoutsMask).map fun i =>
            D3DEvent.populate (tr.bindGroups i).id (alloc.generation + 1)) ++
          applyDirtyBindGroups (heapSwitchMarkAllDirty tr) } := by
    simp only [bgApply]
    rw [if_neg hcond1, if_pos hretry1, hretry2, hgen]
    rfl
  refine ⟨?_, ?_, ?_, ?_, ?_, ?_⟩
  · rw [hb]
  · rw [hb]
  · exact populateGroups_isPopulate tr _ alloc
  · exact applyDirtyBindGroups_binding _
  · intro i hi
    constructor
    · simp [heapSwitchMarkAllDirty, hi]
    · simp [heapSwitchMarkAllDirty, hi]
  · intro tr' al'
    exact bgApply_no_error tr' al'

/-- Witness for C1: two dirty three-descriptor groups against a heap with
five of six slots used — the first populate fails and the switched heap fits
both groups. -/
theorem c1_heap_switch_retry_witness : C1Concl c1Tracker c1Alloc :=
  c1_heap_switch_retry c1Tracker c1Alloc (by decide) (by decide)

theorem maskList_nil (m : Nat → Bool) (h : ∀ i, m i = false) : maskList m = [] := by
  have hr : List.range kMaxBindGroups = [0, 1, 2, 3] := rfl
  simp [maskList, hr, h]

theorem maskList_zero (m : Nat → Bool) (h0 : m 0 = true) (h : ∀ i, ¬ i = 0 → m i = false) :
    maskList m = [0] := by
  have hr : List.range kMaxBindGroups = [0, 1, 2, 3] := rfl
  simp [maskList, hr, h0, h 1 (by omega), h 2 (by omega), h 3 (by omega)]

/-- The three possible tracker outcomes of `Apply`: dirty bits cleared after
a direct success or after a heap-switch retry, or the fatal assertion. -/
theorem bgApply_tracker_cases (t : BindGroupStateTracker) (a : ShaderVisibleAllocator) :
    (bgApply t a).tracker = didApply t ∨
    (bgApply t a).tracker = didApply (heapSwitchMarkAllDirty t) ∨
    ((bgApply t a).tracker = heapSwitchMarkAllDirty t ∧
      (bgApply t a).outcome = ApplyOutcome.fatalAssert) := by
  simp only [bgApply]
  split
  · exact Or.inl rfl
  · split
    · exact Or.inr (Or.inl rfl)
    · exact Or.inr (Or.inr ⟨rfl, rfl⟩)

/-- `Apply` on a tracker with no dirty group realizes nothing and goes
straight to the root-binding loop. -/
theorem bgApply_clean (t : BindGroupStateTracker) (a : ShaderVisibleAllocator)
    (hd : ∀ i, t.dirtyBindGroups i = false) :
    bgApply t a = ⟨ApplyOutcome.ok, didApply t, a, applyDirtyBindGroups t⟩ := by
  have hm : maskList t.dirtyBindGroups = [] := maskList_nil _ hd
  simp only [bgApply, hm]
  rfl

theorem applyDirtyBindGroups_nil (t : BindGroupStateTracker)
    (hd : ∀ i, t.dirtyBindGroupsObjectChangedOrIsDynamic i = false) :
    applyDirtyBindGroups t = [] := by
  rw [applyDirtyBindGroups, maskList_nil _ hd]
  rfl

theorem applyDirtyBindGroups_single (t : BindGroupStateTracker)
    (hd0 : t.dirtyBindGroupsObjectChangedOrIsDynamic 0 = true)
    (hdo : ∀ i, ¬ i = 0 → t.dirtyBindGroupsObjectChangedOrIsDynamic i = false) :
    applyDirtyBindGroups t =
      applyBindGroup t.inCompute t.pipelineLayout 0 (t.bindGroups 0)
        (t.dynamicOffsetCounts 0) (t.dynamicOffsets 0) (t.dirtyBindGroups 0) := by
  rw [applyDirtyBindGroups, maskList_zero _ hd0 hdo]
  simp

theorem applyBindGroup_not_dirty_no_table (inC : Bool) (lay : D3DPipelineLayout)
    (idx : Nat) (g : D3DBindGroup) (cnt : Nat) (offs : List Nat) :
    ∀ e ∈ applyBindGroup inC lay idx g cnt offs false, e.isDescriptorTable = false := by
  intro e he
  simp only [applyBindGroup] at he
  rw [if_neg Bool.false_ne_true] at he
  by_cases hc : cnt ≠ 0
  · rw [if_pos hc] at he
    obtain ⟨bi, _, rfl⟩ := List.mem_map.1 he
    rfl
  · rw [if_neg hc] at he
    cases he

theorem mem_enumFrom_of_mem {α : Type} (b : α) :
    ∀ (l : List α) (n : Nat), b ∈ l → ∃ k, (k, b) ∈ List.enumFrom n l := by
  intro l
  induction l with
  | nil => intro n h; cases h
  | cons a l ih =>
    intro n h
    rcases List.mem_cons.1 h with rfl | h1
    · refine ⟨n, ?_⟩
      show (n, b) ∈ (n, b) :: List.enumFrom (n + 1) l
      exact List.mem_cons.2 (Or.inl rfl)
    · obtain ⟨k, hk⟩ := ih (n + 1) h1
      refine ⟨k, ?_⟩
      show (k, b) ∈ (n, a) :: List.enumFrom (n + 1) l
      exact List.mem_cons.2 (Or.inr hk)

theorem mem_enum_of_mem {α : Type} (l : List α) (b : α) (h : b ∈ l) :
    ∃ k, (k, b) ∈ l.enum :=
  mem_enumFrom_of_mem b l 0 h

/-- C6: re-setting the same group with the same offsets and applying again
realizes no descriptor table — the second `Apply` emits exactly the
dynamic-offset root rebindings (nothing when no offsets are present) — and
`ApplyBindGroup` rebinds every dynamic-offset binding whenever offsets are
present, whether or not the group object is dirty. -/
theorem c6_dynamic_offsets (tr : BindGroupStateTracker) (alloc : ShaderVisibleAllocator)
    (G : D3DBindGroup) (n : Nat) (offs : List Nat)
    (h1 : (bgApply (onSetBindGroup tr 0 G n offs) alloc).outcome = ApplyOutcome.ok) :
    C6Concl tr alloc G n offs := by
  unfold C6Concl
  set trA := (bgApply (onSetBindGroup tr 0 G n offs) alloc).tracker with htrA
  set aA := (bgApply (onSetBindGroup tr 0 G n offs) alloc).alloc with haA
  set trB := onSetBindGroup trA 0 G n offs with htrB
  have hcase := bgApply_tracker_cases (onSetBindGroup tr 0 G n offs) alloc
  rw [← htrA] at hcase
  have hAfields : trA.dirtyBindGroups = (fun _ => false) ∧
      trA.dirtyBindGroupsObjectChangedOrIsDynamic = (fun _ => false) ∧
      trA.bindGroups = (onSetBindGroup tr 0 G n offs).bindGroups ∧
      trA.pipelineLayout = tr.pipelineLayout ∧
      trA.inCompute = tr.inCompute := by
    rcases hcase with h | h | h
    · rw [h]
      exact ⟨rfl, rfl, rfl, rfl, rfl⟩
    · rw [h]
      exact ⟨rfl, rfl, rfl, rfl, rfl⟩
    · cases h1.symm.trans h.2
  obtain ⟨hAd, hAdyn, hAbg, hAlay, hAin⟩ := hAfields
  have hbg0 : trA.bindGroups 0 = G := by
    rw [hAbg]
    show (if 0 = 0 then G else tr.bindGroups 0) = G
    simp
  have hBd : ∀ i, trB.dirtyBindGroups i = false := by
    intro i
    show (if i = 0 ∧ ¬ (trA.bindGroups 0).id = G.id then true
      else trA.dirtyBindGroups i) = false
    rw [if_neg (by rw [hbg0]; simp), hAd]
  have hBdyn0 : 0 < n → trB.dirtyBindGroupsObjectChangedOrIsDynamic 0 = true := by
    intro hn
    show (if 0 = 0 ∧ (¬ (trA.bindGroups 0).id = G.id ∨ 0 < n) then true
      else trA.dirtyBindGroupsObjectChangedOrIsDynamic 0) = true
    rw [if_pos ⟨rfl, Or.inr hn⟩]
  have hBdyn_ne : ∀ i, ¬ i = 0 → trB.dirtyBindGroupsObjectChangedOrIsDynamic i = false := by
    intro i hi
    show (if i = 0 ∧ (¬ (trA.bindGroups 0).id = G.id ∨ 0 < n) then true
      else trA.dirtyBindGroupsObjectChangedOrIsDynamic i) = false
    rw [if_neg (fun hc => hi hc.1), hAdyn]
  have hBdyn_zero : n = 0 → ∀ i, trB.dirtyBindGroupsObjectChangedOrIsDynamic i = false := by
    intro hn i
    show (if i = 0 ∧ (¬ (trA.bindGroups 0).id = G.id ∨ 0 < n) then true
      else trA.dirtyBindGroupsObjectChangedOrIsDynamic i) = false
    rw [if_neg ?_, hAdyn]
    rintro ⟨-, hc | hc⟩
    · exact hc (by rw [hbg0])
    · omega
  have hB := bgApply_clean trB aA hBd
  have hBin : trB.inCompute = tr.inCompute := hAin
  have hBlay : trB.pipelineLayout = tr.pipelineLayout := hAlay
  have hBg0 : trB.bindGroups 0 = G := by
    show (if 0 = 0 then G else trA.bindGroups 0) = G
    simp
  have hBcnt : trB.dynamicOffsetCounts 0 = n := by
    show (if 0 = 0 then n else trA.dynamicOffsetCounts 0) = n
    simp
  have hBoffs : trB.dynamicOffsets 0 = offs := by
    show (if 0 = 0 then offs else trA.dynamicOffsets 0) = offs
    simp
  have hEvents : (bgApply trB aA).events =
      (if 0 < n then applyBindGroup tr.inCompute tr.pipelineLayout 0 G n offs false
        else []) := by
    rw [hB]
    show applyDirtyBindGroups trB = _
    by_cases hn : 0 < n
    · rw [if_pos hn, applyDirtyBindGroups_single trB (hBdyn0 hn) hBdyn_ne,
        hBin, hBlay, hBg0, hBcnt, hBoffs, hBd 0]
    · rw [if_neg hn, applyDirtyBindGroups_nil trB (hBdyn_zero (by omega))]
  refine ⟨?_, hEvents, ?_, ?_⟩
  · rw [hB]
  · intro e he
    rw [hEvents] at he
    by_cases hn : 0 < n
    · rw [if_pos hn] at he
      exact applyBindGroup_not_dirty_no_table _ _ _ _ _ _ e he
    · rw [if_neg hn] at he
      cases he
  · intro inC lay idx cnt dynOffs g dirtyObj hcnt b hb
    obtain ⟨k, hk⟩ := mem_enum_of_mem _ b hb
    refine ⟨g.bindingBufferVA b + (g.bindingOffset b + dynOffs.getD k 0), ?_⟩
    simp only [applyBindGroup]
    by_cases hd : dirtyObj = true
    · rw [if_pos hd]
      refine List.mem_append.2 (Or.inl (List.mem_append.2 (Or.inl ?_)))
      rw [if_pos hcnt]
      exact List.mem_map.2 ⟨(k, b), hk, rfl⟩
    · rw [if_neg hd]
      rw [if_pos hcnt]
      exact List.mem_map.2 ⟨(k, b), hk, rfl⟩

/-- Witness for C6: a group with one dynamic-offset binding set twice with
the same offset value. -/
theorem c6_dynamic_offsets_witness : C6Concl c6Tracker c6Alloc c6Group 1 [32] :=
  c6_dynamic_offsets c6Tracker c6Alloc c6Group 1 [32] (by decide)

/-- The recorder's instruction stream over an appended record list is the
concatenation of the two runs. -/
theorem recordCommands_append (l1 l2 : List TopCommand) :
    ∀ st : ResourceStates,
      recordCommands st (l1 ++ l2) =
        ((recordCommands (recordCommands st l1).1 l2).1,
          (recordCommands st l1).2 ++ (recordCommands (recordCommands st l1).1 l2).2) := by
  induction l1 with
  | nil => intro st; simp [recordCommands]
  | cons c cs ih =>
    intro st
    cases c with
    | beginPass isR u body => simp [recordCommands, ih]
    | copyBufferToBuffer s d so dOff sz => simp [recordCommands, ih]

/-- A barrier fold leaves a state it never lists untouched. -/
theorem barrierFold_untouched (l : List (Nat × Nat)) :
    ∀ (bs : Nat → Nat) (x : Nat), x ∉ l.map Prod.fst → (barrierFold bs l).1 x = bs x := by
  induction l with
  | nil => intro bs x _; rfl
  | cons q rest ih =>
    intro bs x hx
    rw [List.map_cons, List.mem_cons, not_or] at hx
    obtain ⟨hx1, hx2⟩ := hx
    cases q with
    | mk id req =>
      by_cases h : bs id = req
      · simp only [barrierFold, trackUsageAndGetBarrier, if_pos h]
        exact ih bs x hx2
      · simp only [barrierFold, trackUsageAndGetBarrier, if_neg h]
        rw [ih _ x hx2]
        simp only [setFun]
        rw [if_neg hx1]

/-- With each resource listed once, the barrier fold emits exactly the
transitions of the resources whose current state differs from the required
one and leaves every listed resource in its required state. -/
theorem barrierFold_spec (l : List (Nat × Nat)) :
    ∀ bs : Nat → Nat, (l.map Prod.fst).Nodup →
      (barrierFold bs l).2 =
        l.filterMap (fun q =>
          if bs q.1 = q.2 then none else some ⟨q.1, bs q.1, q.2⟩) ∧
      ∀ p ∈ l, (barrierFold bs l).1 p.1 = p.2 := by
  induction l with
  | nil =>
    intro bs _
    exact ⟨rfl, fun p hp => absurd hp (List.not_mem_nil p)⟩
  | cons q rest ih =>
    intro bs hnd
    rw [List.map_cons, List.nodup_cons] at hnd
    obtain ⟨hq, hnd2⟩ := hnd
    cases q with
    | mk id req =>
      by_cases h : bs id = req
      · obtain ⟨ih1, ih2⟩ := ih bs hnd2
        constructor
        · simp only [barrierFold, trackUsageAndGetBarrier, if_pos h, ih1,
            List.filterMap_cons, if_pos h]
        · intro p hp
          rcases List.mem_cons.1 hp with rfl | hp2
          · simp only [barrierFold, trackUsageAndGetBarrier, if_pos h]
            rw [barrierFold_untouched rest bs id hq]
            exact h
          · simp only [barrierFold, trackUsageAndGetBarrier, if_pos h]
            exact ih2 p hp2
      · obtain ⟨ih1, ih2⟩ := ih (setFun bs id req) hnd2
        have hcongr : rest.filterMap (fun q2 =>
            if setFun bs id req q2.1 = q2.2 then none
            else some (Transition.mk q2.1 (setFun bs id req q2.1) q2.2)) =
            rest.filterMap (fun q2 =>
              if bs q2.1 = q2.2 then none
              else some (Transition.mk q2.1 (bs q2.1) q2.2)) := by
          apply List.filterMap_congr
          intro q2 hq2
          have hne : ¬ q2.1 = id := by
            intro he
            exact hq (he ▸ List.mem_map.2 ⟨q2, hq2, rfl⟩)
          simp only [setFun, if_neg hne]
        constructor
        · simp only [barrierFold, trackUsageAndGetBarrier, if_neg h,
            List.filterMap_cons, if_neg h]
          rw [ih1, hcongr]
        · intro p hp
          rcases List.mem_cons.1 hp with rfl | hp2
          · simp only [barrierFold, trackUsageAndGetBarrier, if_neg h]
            rw [barrierFold_untouched rest (setFun bs id req) id hq]
            simp [setFun]
          · simp only [barrierFold, trackUsageAndGetBarrier, if_neg h]
            exact ih2 p hp2

/-- Every instruction the lazy-clear loop emits is a texture clear. -/
theorem textureClearFold_clears (l : List (Nat × Nat × Bool)) :
    ∀ ti : Nat → Bool, ∀ c ∈ (textureClearFold ti l).2,
      ∃ i, c = NativeInstr.clearTexture i := by
  induction l with
  | nil => intro ti c hc; cases hc
  | cons t rest ih =>
    intro ti c hc
    cases t with
    | mk id rest2 =>
      cases rest2 with
      | mk req isOut =>
        by_cases h : isOut = false ∧ ti id = false
        · simp only [textureClearFold, if_pos h] at hc
          rcases List.mem_cons.1 hc with rfl | hc2
          · exact ⟨id, rfl⟩
          · exact ih _ c hc2
        · simp only [textureClearFold, if_neg h] at hc
          exact ih _ c hc

theorem ite_isEmpty {α β : Type} [DecidableEq α] (l : List α) (a b : β) :
    (if l.isEmpty then a else b) = (if l = [] then a else b) := by
  cases l <;> simp

theorem vkRecordCommands_append (l1 l2 : List VkTopCommand) :
    ∀ st : ResourceStates,
      vkRecordCommands st (l1 ++ l2) =
        ((vkRecordCommands (vkRecordCommands st l1).1 l2).1,
          (vkRecordCommands st l1).2 ++ (vkRecordCommands (vkRecordCommands st l1).1 l2).2) := by
  induction l1 with
  | nil => intro st; simp [vkRecordCommands]
  | cons c cs ih =>
    intro st
    cases c with
    | beginPass u body => simp [vkRecordCommands, ih]
    | copyBufferToBuffer s d => simp [vkRecordCommands, ih]

/-- The Vulkan buffer-transition loop leaves a state it never lists
untouched. -/
theorem vkBufferTransitions_untouched (l : List (Nat × Nat)) :
    ∀ (bs : Nat → Nat) (x : Nat), x ∉ l.map Prod.fst →
      (vkBufferTransitions bs l).1 x = bs x := by
  induction l with
  | nil => intro bs x _; rfl
  | cons q rest ih =>
    intro bs x hx
    rw [List.map_cons, List.mem_cons, not_or] at hx
    obtain ⟨hx1, hx2⟩ := hx
    cases q with
    | mk id req =>
      by_cases h : bs id = req
      · simp only [vkBufferTransitions, vkTransitionUsageNow, if_pos h]
        exact ih bs x hx2
      · simp only [vkBufferTransitions, vkTransitionUsageNow, if_neg h]
        rw [ih _ x hx2]
        simp only [setFun]
        rw [if_neg hx1]

/-- With each buffer listed once, the Vulkan buffer loop emits one separate
barrier instruction per buffer whose state differs (every emitted
instruction is a barrier) and leaves every listed buffer in its required
state. -/
theorem vkBufferTransitions_spec (l : List (Nat × Nat)) :
    ∀ bs : Nat → Nat, (l.map Prod.fst).Nodup →
      (vkBufferTransitions bs l).2 =
        l.filterMap (fun q =>
          if bs q.1 = q.2 then none
          else some (VkInstr.pipelineBarrier q.1 (bs q.1) q.2)) ∧
      (∀ c ∈ (vkBufferTransitions bs l).2, VkInstr.isBarrier c = true) ∧
      ∀ p ∈ l, (vkBufferTransitions bs l).1 p.1 = p.2 := by
  induction l with
  | nil =>
    intro bs _
    exact ⟨rfl, fun c hc => absurd hc (List.not_mem_nil c),
      fun p hp => absurd hp (List.not_mem_nil p)⟩
  | cons q rest ih =>
    intro bs hnd
    rw [List.map_cons, List.nodup_cons] at hnd
    obtain ⟨hq, hnd2⟩ := hnd
    cases q with
    | mk id req =>
      by_cases h : bs id = req
      · obtain ⟨ih1, ih2, ih3⟩ := ih bs hnd2
        refine ⟨?_, ?_, ?_⟩
        · simp only [vkBufferTransitions, vkTransitionUsageNow, if_pos h, ih1,
            List.filterMap_cons, if_pos h, List.nil_append]
        · intro c hc
          simp only [vkBufferTransitions, vkTransitionUsageNow, if_pos h,
            List.nil_append] at hc
          exact ih2 c hc
        · intro p hp
          rcases List.mem_cons.1 hp with rfl | hp2
          · simp only [vkBufferTransitions, vkTransitionUsageNow, if_pos h]
            rw [vkBufferTransitions_untouched rest bs id hq]
            exact h
          · simp only [vkBufferTransitions, vkTransitionUsageNow, if_pos h]
            exact ih3 p hp2
      · obtain ⟨ih1, ih2, ih3⟩ := ih (setFun bs id req) hnd2
        have hcongr : rest.filterMap (fun q2 =>
            if setFun bs id req q2.1 = q2.2 then none
            else some (VkInstr.pipelineBarrier q2.1 (setFun bs id req q2.1) q2.2)) =
            rest.filterMap (fun q2 =>
              if bs q2.1 = q2.2 then none
              else some (VkInstr.pipelineBarrier q2.1 (bs q2.1) q2.2)) := by
          apply List.filterMap_congr
          intro q2 hq2
          have hne : ¬ q2.1 = id := by
            intro he
            exact hq (he ▸ List.mem_map.2 ⟨q2, hq2, rfl⟩)
          simp only [setFun, if_neg hne]
        refine ⟨?_, ?_, ?_⟩
        · simp only [vkBufferTransitions, vkTransitionUsageNow, if_neg h,
            List.filterMap_cons, if_neg h]
          rw [ih1, hcongr]
          rfl
        · intro c hc
          simp only [vkBufferTransitions, vkTransitionUsageNow, if_neg h] at hc
          rcases List.mem_append.1 hc with hc1 | hc2
          · rcases List.mem_singleton.1 hc1 with rfl
            rfl
          · exact ih2 c hc2
        · intro p hp
          rcases List.mem_cons.1 hp with rfl | hp2
          · simp only [vkBufferTransitions, vkTransitionUsageNow, if_neg h]
            rw [vkBufferTransitions_untouched rest (setFun bs id req) id hq]
            simp [setFun]
          · simp only [vkBufferTransitions, vkTransitionUsageNow, if_neg h]
            exact ih3 p hp2

/-- The Vulkan texture-transition loop leaves a state it never lists
untouched (for any initialization map). -/
theorem vkTextureTransitions_untouched (l : List (Nat × Nat × Bool)) :
    ∀ (ts : Nat → Nat) (ti : Nat → Bool) (x : Nat), x ∉ l.map Prod.fst →
      (vkTextureTransitions ts ti l).1 x = ts x := by
  induction l with
  | nil => intro ts ti x _; rfl
  | cons t rest ih =>
    intro ts ti x hx
    rw [List.map_cons, List.mem_cons, not_or] at hx
    obtain ⟨hx1, hx2⟩ := hx
    obtain ⟨id, req, isOut⟩ := t
    by_cases h : ts id = req
    · simp only [vkTextureTransitions, vkTransitionUsageNow, if_pos h]
      exact ih ts _ x hx2
    · simp only [vkTextureTransitions, vkTransitionUsageNow, if_neg h]
      rw [ih _ _ x hx2]
      simp only [setFun]
      rw [if_neg hx1]

/-- With each texture listed once, the Vulkan texture loop's barrier
instructions are one separate barrier per texture whose state differs,
every emitted instruction is a barrier or a lazy clear, and every listed
texture ends in its required state. -/
theorem vkTextureTransitions_spec (l : List (Nat × Nat × Bool)) :
    ∀ (ts : Nat → Nat) (ti : Nat → Bool), (l.map Prod.fst).Nodup →
      (vkTextureTransitions ts ti l).2.2.filter VkInstr.isBarrier =
        (l.map fun t => (t.1, t.2.1)).filterMap (fun q =>
          if ts q.1 = q.2 then none
          else some (VkInstr.pipelineBarrier q.1 (ts q.1) q.2)) ∧
      (∀ c ∈ (vkTextureTransitions ts ti l).2.2,
        VkInstr.isBarrier c = true ∨ ∃ i, c = VkInstr.clearTexture i) ∧
      ∀ p ∈ l, (vkTextureTransitions ts ti l).1 p.1 = p.2.1 := by
  induction l with
  | nil =>
    intro ts ti _
    exact ⟨rfl, fun c hc => absurd hc (List.not_mem_nil c),
      fun p hp => absurd hp (List.not_mem_nil p)⟩
  | cons t rest ih =>
    intro ts ti hnd
    rw [List.map_cons, List.nodup_cons] at hnd
    obtain ⟨hq, hnd2⟩ := hnd
    obtain ⟨id, req, isOut⟩ := t
    have hfc : (if isOut = false ∧ ti id = false then [VkInstr.clearTexture id]
        else ([] : List VkInstr)).filter VkInstr.isBarrier = [] := by
      by_cases hcl : isOut = false ∧ ti id = false <;>
        simp [hcl, VkInstr.isBarrier, List.filter]
    by_cases h : ts id = req
    · obtain ⟨ih1, ih2, ih3⟩ :=
        ih ts (if isOut = false ∧ ti id = false then setFunB ti id true else ti) hnd2
      refine ⟨?_, ?_, ?_⟩
      · simp only [vkTextureTransitions, vkTransitionUsageNow, if_pos h,
          List.filter_append, hfc, List.filter_nil, List.nil_append, ih1,
          List.map_cons, List.filterMap_cons, if_pos h]
      · intro c hc
        simp only [vkTextureTransitions, vkTransitionUsageNow, if_pos h,
          List.append_nil] at hc
        rcases List.mem_append.1 hc with hc1 | hc2
        · right
          refine ⟨id, ?_⟩
          by_cases hcl : isOut = false ∧ ti id = false
          · rw [if_pos hcl] at hc1
            exact List.mem_singleton.1 hc1
          · rw [if_neg hcl] at hc1
            exact absurd hc1 (List.not_mem_nil c)
        · exact ih2 c hc2
      · intro p hp
        rcases List.mem_cons.1 hp with rfl | hp2
        · simp only [vkTextureTransitions, vkTransitionUsageNow, if_pos h]
          rw [vkTextureTransitions_untouched rest ts _ id hq]
          exact h
        · simp only [vkTextureTransitions, vkTransitionUsageNow, if_pos h]
          exact ih3 p hp2
    · obtain ⟨ih1, ih2, ih3⟩ :=
        ih (setFun ts id req)
          (if isOut = false ∧ ti id = false then setFunB ti id true else ti) hnd2
      have hcongr : (rest.map fun t2 => (t2.1, t2.2.1)).filterMap (fun q2 =>
          if setFun ts id req q2.1 = q2.2 then none
          else some (VkInstr.pipelineBarrier q2.1 (setFun ts id req q2.1) q2.2)) =
          (rest.map fun t2 => (t2.1, t2.2.1)).filterMap (fun q2 =>
            if ts q2.1 = q2.2 then none
            else some (VkInstr.pipelineBarrier q2.1 (ts q2.1) q2.2)) := by
        apply List.filterMap_congr
        intro q2 hq2
        obtain ⟨t2, ht2, rfl⟩ := List.mem_map.1 hq2
        have hne : ¬ t2.1 = id := by
          intro he
          exact hq (he ▸ List.mem_map.2 ⟨t2, ht2, rfl⟩)
        simp only [setFun, if_neg hne]
      refine ⟨?_, ?_, ?_⟩
      · simp only [vkTextureTransitions, vkTransitionUsageNow, if_neg h,
          List.filter_append, hfc, List.filter_nil, List.nil_append, ih1, hcongr,
          List.map_cons, List.filterMap_cons, if_neg h]
        rfl
      · intro c hc
        simp only [vkTextureTransitions, vkTransitionUsageNow, if_neg h] at hc
        rcases List.mem_append.1 hc with hc12 | hc3
        · rcases List.mem_append.1 hc12 with hc1 | hc2
          · right
            refine ⟨id, ?_⟩
            by_cases hcl : isOut = false ∧ ti id = false
            · rw [if_pos hcl] at hc1
              exact List.mem_singleton.1 hc1
            · rw [if_neg hcl] at hc1
              exact absurd hc1 (List.not_mem_nil c)
          · left
            rcases List.mem_singleton.1 hc2 with rfl
            rfl
        · exact ih2 c hc3
      · intro p hp
        rcases List.mem_cons.1 hp with rfl | hp2
        · simp only [vkTextureTransitions, vkTransitionUsageNow, if_neg h]
          rw [vkTextureTransitions_untouched rest (setFun ts id req) _ id hq]
          simp [setFun]
        · simp only [vkTextureTransitions, vkTransitionUsageNow, if_neg h]
          exact ih3 p hp2

/-- C3, as amended: on either backend the instruction stream is the
in-order concatenation of each record's instructions, with a pass's
transitions — computed per resource by comparing the tracked state to the
required one — hoisted immediately before its body; the D3D12 recorder
batches them as one `ResourceBarrier`, while the Vulkan `TransitionForPass`
emits one barrier instruction per differing resource; every listed
resource's tracked state ends at the required one. -/
theorem c3_transition_batching (st : ResourceStates) (pre post : List TopCommand)
    (isRender : Bool) (u : PassResourceUsage) (body : Nat) :
    C3Concl st pre post isRender u body := by
  unfold C3Concl
  refine ⟨?_, ?_, ?_, ?_⟩
  · rw [recordCommands_append pre (TopCommand.beginPass isRender u body :: post) st]
    show (recordCommands st pre).2 ++
        ((prepareResourcesForSubmission (recordCommands st pre).1 u).2 ++
          [NativeInstr.passBody isRender body] ++
          (recordCommands
            (prepareResourcesForSubmission (recordCommands st pre).1 u).1 post).2) = _
    simp [List.append_assoc]
  · intro st2 u2 hb ht
    have hmap : (u2.textures.map fun t => (t.1, t.2.1)).map Prod.fst =
        u2.textures.map Prod.fst := by
      rw [List.map_map]
      refine List.map_congr_left ?_
      intro a _
      rfl
    have ht2 : ((u2.textures.map fun t => (t.1, t.2.1)).map Prod.fst).Nodup := by
      rw [hmap]
      exact ht
    obtain ⟨hbuf1, hbuf2⟩ := barrierFold_spec u2.buffers st2.bufferState hb
    obtain ⟨htex1, htex2⟩ :=
      barrierFold_spec (u2.textures.map fun t => (t.1, t.2.1)) st2.textureState ht2
    refine ⟨(textureClearFold st2.textureInit u2.textures).2,
      (barrierFold st2.bufferState u2.buffers).2 ++
        (barrierFold st2.textureState (u2.textures.map fun t => (t.1, t.2.1))).2,
      ?_, ?_, ?_, ?_, ?_⟩
    · show (textureClearFold st2.textureInit u2.textures).2 ++
        (if ((barrierFold st2.bufferState u2.buffers).2 ++
            (barrierFold st2.textureState (u2.textures.map fun t => (t.1, t.2.1))).2).isEmpty
          then []
          else [NativeInstr.resourceBarrier
            ((barrierFold st2.bufferState u2.buffers).2 ++
              (barrierFold st2.textureState (u2.textures.map fun t => (t.1, t.2.1))).2)]) = _
      rw [ite_isEmpty]
    · rw [hbuf1, htex1]
    · exact textureClearFold_clears u2.textures st2.textureInit
    · intro p hp
      exact hbuf2 p hp
    · intro t htm
      exact htex2 (t.1, t.2.1) (List.mem_map.2 ⟨t, htm, rfl⟩)
  · intro st3 pre3 post3 u3 b3
    rw [vkRecordCommands_append pre3 (VkTopCommand.beginPass u3 b3 :: post3) st3]
    show (vkRecordCommands st3 pre3).2 ++
        ((transitionForPass (vkRecordCommands st3 pre3).1 u3).2 ++
          [VkInstr.passBody b3] ++
          (vkRecordCommands
            (transitionForPass (vkRecordCommands st3 pre3).1 u3).1 post3).2) = _
    simp [List.append_assoc]
  · intro st4 u4 hb ht
    obtain ⟨hbuf1, hbuf2, hbuf3⟩ := vkBufferTransitions_spec u4.buffers st4.bufferState hb
    obtain ⟨htex1, htex2, htex3⟩ :=
      vkTextureTransitions_spec u4.textures st4.textureState st4.textureInit ht
    refine ⟨?_, ?_, ?_, ?_⟩
    · show ((vkBufferTransitions st4.bufferState u4.buffers).2 ++
        (vkTextureTransitions st4.textureState st4.textureInit
          u4.textures).2.2).filter VkInstr.isBarrier = _
      rw [List.filter_append, List.filter_eq_self.mpr hbuf2, hbuf1, htex1]
    · intro c hc
      have hc2 : c ∈ (vkBufferTransitions st4.bufferState u4.buffers).2 ++
          (vkTextureTransitions st4.textureState st4.textureInit u4.textures).2.2 := hc
      rcases List.mem_append.1 hc2 with hcb | hct
      · exact Or.inl (hbuf2 c hcb)
      · exact htex2 c hct
    · intro p hp
      exact hbuf3 p hp
    · intro t htm
      exact htex3 t htm

/-- Witness for C3: a copy record before a compute pass whose summary lists
two buffers (one already in the required state) and one texture. -/
theorem c3_transition_batching_witness : C3Concl c3State c3Pre c3Post false c3Usage 7 :=
  c3_transition_batching c3State c3Pre c3Post false c3Usage 7

/-- Counterexample to C3 as stated: the claim requires each pass's
transitions "as one batched barrier operation — not as one barrier
instruction per resource" and cites the Vulkan `TransitionForPass`; but
that function transitions each resource through its own immediately
emitted `TransitionUsageNow` call, so a pass whose usage summary lists two
buffers whose states differ records two separate barrier instructions. -/
theorem c3_transition_batching_cex :
    (transitionForPass c3VkState c3VkUsage).2 =
      [VkInstr.pipelineBarrier 1 0 4, VkInstr.pipelineBarrier 2 0 5] ∧
    ((transitionForPass c3VkState c3VkUsage).2.filter VkInstr.isBarrier).length = 2 :=
  ⟨rfl, rfl⟩
